import Mathlib

/-!
Verification of the exam-attempt scoring protocol of the smart_exam server
(`server/routes.ts` + `server/storage.ts` + `shared/schema.ts`).

The server is shallowly embedded: the in-memory `MemStorage` (JS `Map`s keyed
by sequential integer ids, iterated in insertion order) becomes a `Storage`

structure of lists plus id counters, and each Express route handler becomes a
function `args → Storage → Except ApiError out × Storage` (the response paired
with the post-request store; mutations performed before an error response is
sent are kept, exactly as in the source, where `storage` updates are in-place).

Modelling conventions:
* ids and timestamps are `Nat` (timestamps are milliseconds since epoch, as
  `Date.getTime()` in the source); points and scores are `Int`
  (JS numbers used integrally by the code);
* nullable columns (`completedAt`, `score`, `isCorrect`, ...) are `Option`s;
  a JS `Date` object is always truthy, so `if (attempt.completedAt)` is
  `completedAt.isSome`;
* the caller (`req.user`, supplied by the auth-bypass middleware) is passed
  explicitly as a user id, and request-body fields are explicit arguments
  already carrying their parsed type (`typeof score === 'number'` becomes
  `score : Int`, resp. `score : Option Int` where the field is optional;
  `!!isCorrect` becomes `isCorrect : Bool`);
* `question.correctAnswer` is stored as JSON in the schema (a string for
  multiple-choice/true-false, an array for essay); only the string form is
  ever compared by the server, so it is modelled as `Option String`
  (`null`/array ↦ `none`: JS `submitted === correctAnswer` is false whenever
  `correctAnswer` is not the same string, which `some text == correctAnswer`
  reproduces); the unread `options` JSON column is omitted;
* JS `answer.score || 0` agrees with `Option.getD · 0` on every `Option Int`
  (for `some 0` both give `0`, for `some n`, `n ≠ 0`, both give `n`, for
  `null` both give `0`), so `getD` is used;
* `Array.prototype.find` / `filter` / stable `sort` become `List.find?` /
  `List.filter` / `List.mergeSort`.
-/

/-- The `exams` table (`shared/schema.ts`); only the columns the attempt/scoring
routes read are kept (`description`, `fileUrl`, `shareCode`, `isPublic`,
`createdAt` are never consulted by them). -/
structure Exam where
  id : Nat
  userId : Nat
  title : String
  subject : String
  duration : Int
  status : String
deriving Repr, DecidableEq

/-- The `questions` table (`shared/schema.ts`); the unread `options` JSON column is
omitted; `correctAnswer` keeps only its string form (see file comment). -/
structure Question where
  id : Nat
  examId : Nat
  type : String
  text : String
  points : Int
  order : Int
  correctAnswer : Option String
deriving Repr, DecidableEq

/-- The `exam_attempts` table (`shared/schema.ts`). -/
structure ExamAttempt where
  id : Nat
  examId : Nat
  userId : Nat
  startedAt : Nat
  completedAt : Option Nat
  score : Option Int
  maxScore : Int
  timeSpent : Option Int
deriving Repr, DecidableEq

/-- The `answers` table (`shared/schema.ts`). -/
structure Answer where
  id : Nat
  attemptId : Nat
  questionId : Nat
  answer : String
  isCorrect : Option Bool
  score : Option Int
  manuallyGraded : Bool
deriving Repr, DecidableEq

/-- The `grading_requests` table (`shared/schema.ts`). -/
structure GradingRequest where
  id : Nat
  answerId : Nat
  requestedAt : Nat
  status : String
  comment : Option String
  resolvedAt : Option Nat
deriving Repr, DecidableEq

/-- The `MemStorage` maps and id counters (`server/storage.ts`). JS `Map`s
iterate in insertion order, so each map is a list; `Map.set` on a fresh id
appends, `Map.set` on an existing id replaces in place. The `users` map is
not modelled: the routes only use the ambient user's id. -/
structure Storage where
  exams : List Exam
  questions : List Question
  examAttempts : List ExamAttempt
  answers : List Answer
  gradingRequests : List GradingRequest
  questionIdCounter : Nat
  attemptIdCounter : Nat
  answerIdCounter : Nat
  requestIdCounter : Nat
deriving Repr, DecidableEq

/-- Equality of route responses is decidable (used to evaluate the model on
concrete stores). -/
instance {e a : Type} [DecidableEq e] [DecidableEq a] : DecidableEq (Except e a) := fun x y =>
  match x, y with
  | .error u, .error v =>
      if h : u = v then .isTrue (h ▸ rfl)
      else .isFalse (fun hh => h (Except.error.inj hh))
  | .error _, .ok _ => .isFalse (fun hh => Except.noConfusion hh)
  | .ok _, .error _ => .isFalse (fun hh => Except.noConfusion hh)
  | .ok u, .ok v =>
      if h : u = v then .isTrue (h ▸ rfl)
      else .isFalse (fun hh => h (Except.ok.inj hh))

/-- HTTP error responses of the route handlers: `notFound` is a 404,
`forbidden` a 403, `badRequest` a 400 (the code uses 400 both for
invalid-state and invalid-input conditions, distinguished by message). -/
inductive ApiError where
  | notFound (msg : String)
  | forbidden (msg : String)
  | badRequest (msg : String)
deriving Repr, DecidableEq

/-- Model of `MemStorage.getExam`. -/
def getExam (s : Storage) (id : Nat) : Option Exam :=
  s.exams.find? (fun e => e.id == id)

/-- Model of `MemStorage.getQuestion`. -/
def getQuestion (s : Storage) (id : Nat) : Option Question :=
  s.questions.find? (fun q => q.id == id)

/-- Model of `MemStorage.getExamAttempt`. -/
def getExamAttempt (s : Storage) (id : Nat) : Option ExamAttempt :=
  s.examAttempts.find? (fun a => a.id == id)

/-- Model of `MemStorage.getAnswer`. -/
def getAnswer (s : Storage) (id : Nat) : Option Answer :=
  s.answers.find? (fun a => a.id == id)

/-- Model of `MemStorage.getGradingRequest`. -/
def getGradingRequest (s : Storage) (id : Nat) : Option GradingRequest :=
  s.gradingRequests.find? (fun r => r.id == id)

/-- Model of `MemStorage.getQuestionsByExam`: filter by `examId`, then stable sort
ascending by `order` (JS `sort((a, b) => a.order - b.order)` is stable; the
stable ascending sort of a list is unique, and insertion sort on a strict
comparison realises it structurally). -/
def getQuestionsByExam (s : Storage) (examId : Nat) : List Question :=
  (s.questions.filter (fun q => q.examId == examId)).insertionSort
    (fun a b => a.order < b.order)

/-- Model of `MemStorage.getExamAttemptsByUser`. -/
def getExamAttemptsByUser (s : Storage) (userId : Nat) : List ExamAttempt :=
  s.examAttempts.filter (fun a => a.userId == userId)

/-- Model of `MemStorage.getAnswersByAttempt`. -/
def getAnswersByAttempt (s : Storage) (attemptId : Nat) : List Answer :=
  s.answers.filter (fun a => a.attemptId == attemptId)

/-- Model of `MemStorage.createQuestion` (the `|| 0` / `|| null` defaults of the source
collapse on already-typed inputs: `points || 0` is the identity on a supplied
integer except that it maps `0` to `0`, and `correctAnswer || null` maps the
falsy empty string to `null`). -/
def createQuestion (s : Storage) (examId : Nat) (type text : String)
    (points order : Int) (correctAnswer : Option String) :
    Question × Storage :=
  let id := s.questionIdCounter
  let question : Question :=
    { id, examId, type, text, points, order,
      correctAnswer := if correctAnswer = some "" then none else correctAnswer }
  (question,
   { s with questions := s.questions ++ [question], questionIdCounter := id + 1 })

/-- Model of `MemStorage.createExamAttempt`: `startedAt = new Date()` (the `now`
argument), `completedAt = null`, `score = null`, `timeSpent = null`. -/
def createExamAttempt (s : Storage) (examId userId : Nat) (maxScore : Int)
    (now : Nat) : ExamAttempt × Storage :=
  let id := s.attemptIdCounter
  let attempt : ExamAttempt :=
    { id, examId, userId, startedAt := now, completedAt := none,
      score := none, maxScore, timeSpent := none }
  (attempt,
   { s with examAttempts := s.examAttempts ++ [attempt],
            attemptIdCounter := id + 1 })

/-- Model of `MemStorage.updateExamAttempt`: merge a partial record into the stored one
(`{ ...attempt, ...attemptData }`) and `Map.set` it back; returns the merged
record, or `none` (JS `undefined`) when the id is absent. -/
def updateExamAttempt (s : Storage) (id : Nat)
    (patch : ExamAttempt → ExamAttempt) : Option ExamAttempt × Storage :=
  match s.examAttempts.find? (fun a => a.id == id) with
  | none => (none, s)
  | some attempt =>
      let updated := patch attempt
      (some updated,
       { s with examAttempts :=
          s.examAttempts.map (fun b => if b.id == id then updated else b) })

/-- Model of `MemStorage.createAnswer`: `isCorrect = null`, `score = null`,
`manuallyGraded = false`. -/
def createAnswer (s : Storage) (attemptId questionId : Nat) (answer : String) :
    Answer × Storage :=
  let id := s.answerIdCounter
  let ans : Answer :=
    { id, attemptId, questionId, answer, isCorrect := none, score := none,
      manuallyGraded := false }
  (ans, { s with answers := s.answers ++ [ans], answerIdCounter := id + 1 })

/-- Model of `MemStorage.updateAnswer` (same merge-and-set shape as
`updateExamAttempt`). -/
def updateAnswer (s : Storage) (id : Nat) (patch : Answer → Answer) :
    Option Answer × Storage :=
  match s.answers.find? (fun a => a.id == id) with
  | none => (none, s)
  | some answer =>
      let updated := patch answer
      (some updated,
       { s with answers :=
          s.answers.map (fun b => if b.id == id then updated else b) })

/-- Model of `MemStorage.createGradingRequest`: `requestedAt = new Date()`,
`status = "pending"`, `resolvedAt = null`. -/
def createGradingRequest (s : Storage) (answerId : Nat)
    (comment : Option String) (now : Nat) : GradingRequest × Storage :=
  let id := s.requestIdCounter
  let request : GradingRequest :=
    { id, answerId, requestedAt := now, status := "pending",
      comment := if comment = some "" then none else comment,
      resolvedAt := none }
  (request,
   { s with gradingRequests := s.gradingRequests ++ [request],
            requestIdCounter := id + 1 })

/-- Model of `MemStorage.updateGradingRequest` (merge-and-set). -/
def updateGradingRequest (s : Storage) (id : Nat)
    (patch : GradingRequest → GradingRequest) :
    Option GradingRequest × Storage :=
  match s.gradingRequests.find? (fun r => r.id == id) with
  | none => (none, s)
  | some request =>
      let updated := patch request
      (some updated,
       { s with gradingRequests :=
          s.gradingRequests.map (fun b => if b.id == id then updated else b) })

/-- The `sum` of answer scores as computed by the routes:
`answers.reduce((total, a) => total + (a.score || 0), 0)`. -/
def sumScores (answers : List Answer) : Int :=
  answers.foldl (fun total a => total + a.score.getD 0) 0

/-- The `sum` of question points as computed by `POST /api/exams/:examId/attempts`:
`questions.reduce((total, q) => total + q.points, 0)`. -/
def sumPoints (questions : List Question) : Int :=
  questions.foldl (fun total q => total + q.points) 0

/-- The inline auto-grading block of `POST /api/attempts/:attemptId/answers`
(`routes.ts` 709–718 and 735–744): `isCorrect` and `score` are initialised to
`false` / `0` and only overwritten for `multiple_choice` / `true_false`, so a
non-essay question of any other type yields `(false, 0)`. -/
def autoGrade (question : Question) (answerText : String) : Bool × Int :=
  if question.type = "multiple_choice" then
    let isCorrect := question.correctAnswer == some answerText
    (isCorrect, if isCorrect then question.points else 0)
  else if question.type = "true_false" then
    let isCorrect := question.correctAnswer == some answerText
    (isCorrect, if isCorrect then question.points else 0)
  else
    (false, 0)

/-- The grade-and-store step shared by both branches of
`POST /api/attempts/:attemptId/answers`: look the question up, and unless it is
an essay (`question && question.type !== 'essay'`), store the auto-grade on the
answer with id `answerId`. -/
def gradeStoredAnswer (s : Storage) (answerId questionId : Nat)
    (answerText : String) : Storage :=
  match getQuestion s questionId with
  | some question =>
      if question.type ≠ "essay" then
        let g := autoGrade question answerText
        (updateAnswer s answerId
          (fun a => { a with isCorrect := some g.1, score := some g.2 })).2
      else s
  | none => s

/-- Model of `POST /api/exams/:examId/attempts` (`routes.ts` 513–555): StartAttempt. -/
def startAttempt (caller examId : Nat) (now : Nat) (s : Storage) :
    Except ApiError ExamAttempt × Storage :=
  match getExam s examId with
  | none => (.error (.notFound "Exam not found"), s)
  | some exam =>
    if exam.status ≠ "active" then
      (.error (.badRequest "Exam is not active"), s)
    else
      match (getExamAttemptsByUser s caller).find?
          (fun a => a.examId == examId && a.completedAt == none) with
      | some existingAttempt => (.ok existingAttempt, s)
      | none =>
          let questions := getQuestionsByExam s examId
          let maxScore := sumPoints questions
          let r := createExamAttempt s examId caller maxScore now
          (.ok r.1, r.2)

/-- Model of `PUT /api/attempts/:id/complete` (`routes.ts` 633–670): CompleteAttempt.
`Math.floor((completedAt − startedAt) / 1000)` on millisecond timestamps is
floor division on `Int`, i.e. `Int.fdiv`. -/
def completeAttempt (caller attemptId : Nat) (now : Nat) (s : Storage) :
    Except ApiError (Option ExamAttempt) × Storage :=
  match getExamAttempt s attemptId with
  | none => (.error (.notFound "Attempt not found"), s)
  | some attempt =>
    if attempt.userId ≠ caller then (.error (.forbidden "Forbidden"), s)
    else if attempt.completedAt.isSome then
      (.error (.badRequest "Attempt already completed"), s)
    else
      let completedAt := now
      let timeSpent : Int := ((completedAt : Int) - (attempt.startedAt : Int)).fdiv 1000
      let answers := getAnswersByAttempt s attemptId
      let score := sumScores answers
      let r := updateExamAttempt s attemptId
        (fun a => { a with completedAt := some completedAt,
                           timeSpent := some timeSpent,
                           score := some score })
      (.ok r.1, r.2)

/-- Model of `POST /api/attempts/:attemptId/answers` (`routes.ts` 673–760):
SubmitAnswer. The response is the record captured *before* the grading update
(the storage spread-copies on update, so the previously returned object keeps
its old `isCorrect`/`score`). -/
def submitAnswer (caller attemptId questionId : Nat) (answerText : String)
    (s : Storage) : Except ApiError (Option Answer) × Storage :=
  match getExamAttempt s attemptId with
  | none => (.error (.notFound "Attempt not found"), s)
  | some attempt =>
    if attempt.userId ≠ caller then (.error (.forbidden "Forbidden"), s)
    else if attempt.completedAt.isSome then
      (.error (.badRequest "Attempt already completed"), s)
    else
      match (getAnswersByAttempt s attemptId).find?
          (fun a => a.questionId == questionId) with
      | some existingAnswer =>
          let r := updateAnswer s existingAnswer.id
            (fun a => { a with answer := answerText })
          (.ok r.1,
           gradeStoredAnswer r.2 existingAnswer.id questionId answerText)
      | none =>
          let r := createAnswer s attemptId questionId answerText
          (.ok (some r.1),
           gradeStoredAnswer r.2 r.1.id questionId answerText)

/-- Model of `PUT /api/answers/:id/grade` (`routes.ts` 762–819): manual grading by the
exam's owning teacher. -/
def gradeAnswer (caller answerId : Nat) (score : Int) (isCorrect : Bool)
    (s : Storage) : Except ApiError (Option Answer) × Storage :=
  match getAnswer s answerId with
  | none => (.error (.notFound "Answer not found"), s)
  | some answer =>
  match getExamAttempt s answer.attemptId with
  | none => (.error (.notFound "Attempt not found"), s)
  | some attempt =>
  match getExam s attempt.examId with
  | none => (.error (.notFound "Exam not found"), s)
  | some exam =>
    if exam.userId ≠ caller then (.error (.forbidden "Forbidden"), s)
    else if score < 0 then (.error (.badRequest "Invalid score"), s)
    else
      match getQuestion s answer.questionId with
      | none => (.error (.notFound "Question not found"), s)
      | some question =>
        if score > question.points then
          (.error (.badRequest "Score cannot exceed question points"), s)
        else
          let r := updateAnswer s answerId
            (fun a => { a with score := some score, isCorrect := some isCorrect,
                               manuallyGraded := true })
          let totalScore := sumScores (getAnswersByAttempt r.2 attempt.id)
          let r₂ := updateExamAttempt r.2 attempt.id
            (fun a => { a with score := some totalScore })
          (.ok r.1, r₂.2)

/-- Model of `POST /api/answers/:answerId/grading-requests` (`routes.ts` 822–855):
RequestReview. -/
def requestReview (caller answerId : Nat) (comment : Option String)
    (now : Nat) (s : Storage) : Except ApiError GradingRequest × Storage :=
  match getAnswer s answerId with
  | none => (.error (.notFound "Answer not found"), s)
  | some answer =>
  match getExamAttempt s answer.attemptId with
  | none => (.error (.notFound "Attempt not found"), s)
  | some attempt =>
    if attempt.userId ≠ caller then (.error (.forbidden "Forbidden"), s)
    else
      let r := createGradingRequest s answerId comment now
      (.ok r.1, r.2)

/-- Model of `PUT /api/grading-requests/:id` (`routes.ts` 900–971): ResolveRequest.
Faithful to the source's order of effects: the grading request is updated
(status/comment/resolvedAt) *before* the question lookup and the
score-vs-points validation, so those two error responses leave the request
already mutated. There is no `score < 0` check on this route. -/
def resolveGradingRequest (caller requestId : Nat) (status : String)
    (comment : Option String) (score : Option Int) (now : Nat) (s : Storage) :
    Except ApiError (Option GradingRequest) × Storage :=
  match getGradingRequest s requestId with
  | none => (.error (.notFound "Grading request not found"), s)
  | some request =>
  match getAnswer s request.answerId with
  | none => (.error (.notFound "Answer not found"), s)
  | some answer =>
  match getExamAttempt s answer.attemptId with
  | none => (.error (.notFound "Attempt not found"), s)
  | some attempt =>
  match getExam s attempt.examId with
  | none => (.error (.notFound "Exam not found"), s)
  | some exam =>
    if exam.userId ≠ caller then (.error (.forbidden "Forbidden"), s)
    else if ¬ (status = "approved" ∨ status = "rejected") then
      (.error (.badRequest "Invalid status"), s)
    else
      let ur := updateGradingRequest s requestId
        (fun r => { r with status := status, comment := comment,
                           resolvedAt := some now })
      if status = "approved" then
        match score with
        | some sc =>
          match getQuestion ur.2 answer.questionId with
          | none => (.error (.notFound "Question not found"), ur.2)
          | some question =>
            if sc > question.points then
              (.error (.badRequest "Score cannot exceed question points"),
               ur.2)
            else
              let ua := updateAnswer ur.2 answer.id
                (fun a => { a with score := some sc,
                                   isCorrect := some (decide (sc > 0)),
                                   manuallyGraded := true })
              let totalScore := sumScores (getAnswersByAttempt ua.2 attempt.id)
              let ue := updateExamAttempt ua.2 attempt.id
                (fun a => { a with score := some totalScore })
              (.ok ur.1, ue.2)
        | none => (.ok ur.1, ur.2)
      else (.ok ur.1, ur.2)

/-- Model of `POST /api/exams/:examId/questions` (`routes.ts` 398–426): AddQuestion. -/
def addQuestion (caller examId : Nat) (type text : String)
    (points order : Int) (correctAnswer : Option String) (s : Storage) :
    Except ApiError Question × Storage :=
  match getExam s examId with
  | none => (.error (.notFound "Exam not found"), s)
  | some exam =>
    if exam.userId ≠ caller then (.error (.forbidden "Forbidden"), s)
    else
      let r := createQuestion s examId type text points order correctAnswer
      (.ok r.1, r.2)

/-! ## Invariant vocabulary and the operation language -/

/-- Well-formedness of the answers map maintained by `MemStorage`: every
stored id is below the counter (ids are allocated by `answerIdCounter++`) and
ids are pairwise distinct (JS `Map` keys). -/
def answersWf (s : Storage) : Prop :=
  (∀ a ∈ s.answers, a.id < s.answerIdCounter) ∧ (s.answers.map Answer.id).Nodup

/-- Upper score bound of one answer against the question list: if the answer
is graded and its question exists, `score ≤ points` (ungraded answers and
answers to missing questions satisfy it vacuously). -/
def answerUnderMax (qs : List Question) (a : Answer) : Bool :=
  match a.score with
  | none => true
  | some sc =>
    match qs.find? (fun q => q.id == a.questionId) with
    | none => true
    | some q => decide (sc ≤ q.points)

/-- Full score bounds of one answer: if graded and the question exists,
`0 ≤ score ≤ points`. -/
def answerInBounds (qs : List Question) (a : Answer) : Bool :=
  match a.score with
  | none => true
  | some sc =>
    match qs.find? (fun q => q.id == a.questionId) with
    | none => true
    | some q => decide (0 ≤ sc) && decide (sc ≤ q.points)

/-- Every answer of the store respects its question's upper score bound. -/
def scoresUnderMax (s : Storage) : Prop :=
  ∀ a ∈ s.answers, answerUnderMax s.questions a = true

/-- Every answer of the store respects `0 ≤ score ≤ points` (the spec's
score-bounds invariant). -/
def scoreInBounds (s : Storage) : Prop :=
  ∀ a ∈ s.answers, answerInBounds s.questions a = true

/-- The grading operations a student/teacher can run against a store
(answer submission, teacher manual grading, review request, grading-request
resolution). -/
inductive Op where
  | submit (caller attemptId questionId : Nat) (answerText : String)
  | manualGrade (caller answerId : Nat) (score : Int) (isCorrect : Bool)
  | review (caller answerId : Nat) (comment : Option String) (now : Nat)
  | resolve (caller requestId : Nat) (status : String) (comment : Option String)
      (score : Option Int) (now : Nat)
deriving Repr, DecidableEq

/-- Run one operation, keeping only the post-request store. -/
def applyOp (s : Storage) : Op → Storage
  | .submit caller attemptId questionId answerText =>
      (submitAnswer caller attemptId questionId answerText s).2
  | .manualGrade caller answerId score isCorrect =>
      (gradeAnswer caller answerId score isCorrect s).2
  | .review caller answerId comment now =>
      (requestReview caller answerId comment now s).2
  | .resolve caller requestId status comment score now =>
      (resolveGradingRequest caller requestId status comment score now s).2

/-- Run a sequence of operations. -/
def applyOps (s : Storage) (ops : List Op) : Storage := ops.foldl applyOp s

/-- Computes `true` unless the operation is a grading-request resolution carrying a
negative score. -/
def opScoreNonneg : Op → Bool
  | .resolve _ _ _ _ (some sc) _ => decide (0 ≤ sc)
  | _ => true

/-- Whether a route response is a success (HTTP 2xx). -/
def isOkB {α : Type} : Except ApiError α → Bool
  | .ok _ => true
  | .error _ => false

/-- Store with one open attempt (user 20) holding answers scored 2, 0, 3. -/
def c1State : Storage :=
  { exams := [], questions := []
  , examAttempts :=
      [ { id := 1, examId := 1, userId := 20, startedAt := 1000,
          completedAt := none, score := none, maxScore := 6, timeSpent := none } ]
  , answers :=
      [ { id := 1, attemptId := 1, questionId := 1, answer := "a",
          isCorrect := some true, score := some 2, manuallyGraded := false }
      , { id := 2, attemptId := 1, questionId := 2, answer := "b",
          isCorrect := some false, score := some 0, manuallyGraded := false }
      , { id := 3, attemptId := 1, questionId := 3, answer := "c",
          isCorrect := none, score := some 3, manuallyGraded := true } ]
  , gradingRequests := []
  , questionIdCounter := 4, attemptIdCounter := 2, answerIdCounter := 4
  , requestIdCounter := 1 }

/-- An active exam owned by teacher 10, used by concrete test stores. -/
def examActive : Exam :=
  { id := 1, userId := 10, title := "t", subject := "s", duration := 60,
    status := "active" }

/-- Store with just the active exam (no questions, no attempts). -/
def c4State : Storage :=
  { exams := [examActive]
  , questions := [], examAttempts := [], answers := [], gradingRequests := []
  , questionIdCounter := 1, attemptIdCounter := 1, answerIdCounter := 1
  , requestIdCounter := 1 }

/-- The attempt the first `startAttempt` call on `c4State` creates. -/
def c4Attempt : ExamAttempt :=
  { id := 1, examId := 1, userId := 20, startedAt := 1000, completedAt := none,
    score := none, maxScore := 0, timeSpent := none }

/-- Store with the active exam and one 3-point question. -/
def c5State : Storage :=
  { exams := [examActive]
  , questions :=
      [ { id := 1, examId := 1, type := "multiple_choice", text := "q",
          points := 3, order := 0, correctAnswer := some "A" } ]
  , examAttempts := [], answers := [], gradingRequests := []
  , questionIdCounter := 2, attemptIdCounter := 1, answerIdCounter := 1
  , requestIdCounter := 1 }

/-- The attempt as completed by the first call on `c1State`. -/
def c6Completed : ExamAttempt :=
  { id := 1, examId := 1, userId := 20, startedAt := 1000,
    completedAt := some 61000, score := some 5, maxScore := 6,
    timeSpent := some 60 }

/-- Store with a pending grading request on answer 1 (scored 1 of 5) of a
completed attempt whose other answer is scored 2. -/
def c2State : Storage :=
  { exams := [examActive]
  , questions :=
      [ { id := 1, examId := 1, type := "essay", text := "q1", points := 5,
          order := 0, correctAnswer := none } ]
  , examAttempts :=
      [ { id := 1, examId := 1, userId := 20, startedAt := 1000,
          completedAt := some 61000, score := some 3, maxScore := 7,
          timeSpent := some 60 } ]
  , answers :=
      [ { id := 1, attemptId := 1, questionId := 1, answer := "essay text",
          isCorrect := some false, score := some 1, manuallyGraded := true }
      , { id := 2, attemptId := 1, questionId := 2, answer := "B",
          isCorrect := some true, score := some 2, manuallyGraded := false } ]
  , gradingRequests :=
      [ { id := 1, answerId := 1, requestedAt := 5000, status := "pending",
          comment := none, resolvedAt := none } ]
  , questionIdCounter := 2, attemptIdCounter := 2, answerIdCounter := 3
  , requestIdCounter := 2 }

/-- Store with an open attempt on an exam whose only question has the
unknown type `"short_answer"`. -/
def c3State : Storage :=
  { exams := [examActive]
  , questions :=
      [ { id := 1, examId := 1, type := "short_answer", text := "q",
          points := 5, order := 0, correctAnswer := some "x" } ]
  , examAttempts :=
      [ { id := 1, examId := 1, userId := 20, startedAt := 1000,
          completedAt := none, score := none, maxScore := 5,
          timeSpent := none } ]
  , answers := [], gradingRequests := []
  , questionIdCounter := 2, attemptIdCounter := 2, answerIdCounter := 1
  , requestIdCounter := 1 }

/-- Store with an open attempt, a multiple-choice and a true-false question,
and an existing auto-graded answer to question 1. -/
def c10State : Storage :=
  { exams := [examActive]
  , questions :=
      [ { id := 1, examId := 1, type := "multiple_choice", text := "q1",
          points := 1, order := 0, correctAnswer := some "A" }
      , { id := 2, examId := 1, type := "true_false", text := "q2",
          points := 2, order := 1, correctAnswer := some "true" } ]
  , examAttempts :=
      [ { id := 1, examId := 1, userId := 20, startedAt := 1000,
          completedAt := none, score := none, maxScore := 3,
          timeSpent := none } ]
  , answers :=
      [ { id := 1, attemptId := 1, questionId := 1, answer := "A",
          isCorrect := some true, score := some 1,
          manuallyGraded := false } ]
  , gradingRequests := []
  , questionIdCounter := 3, attemptIdCounter := 2, answerIdCounter := 2
  , requestIdCounter := 1 }

/-- The pre-existing answer of `c10State`. -/
def c10Answer : Answer :=
  { id := 1, attemptId := 1, questionId := 1, answer := "A",
    isCorrect := some true, score := some 1, manuallyGraded := false }

/-- Base store for the score-bounds counterexample: the active exam, an
essay question worth 5, an open attempt, no answers yet. -/
def c7Base : Storage :=
  { exams := [examActive]
  , questions :=
      [ { id := 1, examId := 1, type := "essay", text := "q", points := 5,
          order := 0, correctAnswer := none } ]
  , examAttempts :=
      [ { id := 1, examId := 1, userId := 20, startedAt := 1000,
          completedAt := none, score := none, maxScore := 5,
          timeSpent := none } ]
  , answers := [], gradingRequests := []
  , questionIdCounter := 2, attemptIdCounter := 2, answerIdCounter := 1
  , requestIdCounter := 1 }

/-- Submit an essay answer, request review, then resolve the request as
approved with score −3 — a sequence the server accepts. -/
def c7Trace : Storage :=
  applyOps c7Base
    [ .submit 20 1 1 "my essay", .review 20 1 none 5000,
      .resolve 10 1 "approved" none (some (-3)) 9000 ]

/-- The same trace with a nonnegative override score. -/
def c7GoodOps : List Op :=
  [ .submit 20 1 1 "my essay", .review 20 1 none 5000,
    .resolve 10 1 "approved" none (some 4) 9000 ]

instance (s : Storage) : Decidable (scoreInBounds s) := by
  unfold scoreInBounds
  infer_instance

instance (s : Storage) : Decidable (scoresUnderMax s) := by
  unfold scoresUnderMax
  infer_instance

instance (s : Storage) : Decidable (answersWf s) := by
  unfold answersWf
  exact instDecidableAnd

/-! ## List toolkit -/

/-- Replacing the entries a predicate selects is the identity when the
predicate selects nothing. -/
theorem map_replace_of_find?_none {α : Type} (p : α → Bool) (u : α)
    (l : List α) (h : l.find? p = none) :
    l.map (fun b => if p b then u else b) = l := by
  rw [List.find?_eq_none] at h
  calc l.map (fun b => if p b then u else b) = l.map id := by
        apply List.map_congr_left
        intro a ha
        simp [h a ha]
    _ = l := List.map_id l

/-- A `find?` by one id is unaffected by replacing the entries of a different
id, provided the replacement also carries that different id. -/
theorem find?_map_replace_ne {α : Type} (idOf : α → Nat) (key probe : Nat)
    (u : α) (l : List α) (hne : probe ≠ key) (hu : idOf u = key) :
    (l.map (fun b => if idOf b == key then u else b)).find?
        (fun b => idOf b == probe)
      = l.find? (fun b => idOf b == probe) := by
  induction l with
  | nil => rfl
  | cons c cs ih =>
      simp only [List.map_cons, List.find?_cons]
      rcases hck : (idOf c == key) with _ | _
      · simp only [hck, Bool.false_eq_true, if_false]
        rcases hcp : (idOf c == probe) with _ | _
        · simp only [hcp]; exact ih
        · simp only [hcp]
      · have hck' : idOf c = key := by simpa using hck
        have hup : (idOf u == probe) = false := by
          simpa [hu] using Ne.symm hne
        simp only [hck, eq_self_iff_true, if_true, hup]
        have hcp : (idOf c == probe) = false := by
          simpa [hck'] using Ne.symm hne
        simp only [hcp]
        exact ih

/-- A `find?` by an id after replacing that id's entries by `u` yields `u`
exactly when the original `find?` succeeded. -/
theorem find?_map_replace_eq {α : Type} (idOf : α → Nat) (key : Nat)
    (u : α) (l : List α) (hu : idOf u = key) :
    (l.map (fun b => if idOf b == key then u else b)).find?
        (fun b => idOf b == key)
      = (l.find? (fun b => idOf b == key)).map (fun _ => u) := by
  induction l with
  | nil => rfl
  | cons c cs ih =>
      simp only [List.map_cons, List.find?_cons]
      rcases hck : (idOf c == key) with _ | _
      · simp only [hck, Bool.false_eq_true, if_false]
        exact ih
      · have huk : (idOf u == key) = true := by simpa using hu
        simp only [hck, eq_self_iff_true, if_true, huk, Option.map_some]
        rfl

/-- In a list with pairwise-distinct ids, `find?` by a member's id returns
that member. -/
theorem find?_id_of_nodup {α : Type} (idOf : α → Nat) (l : List α) (a : α)
    (hmem : a ∈ l) (hnodup : (l.map idOf).Nodup) :
    l.find? (fun b => idOf b == idOf a) = some a := by
  induction l with
  | nil => cases hmem
  | cons c cs ih =>
      rw [List.map_cons, List.nodup_cons] at hnodup
      rcases List.mem_cons.mp hmem with rfl | hmem'
      · simp [List.find?_cons]
      · have hne : (idOf c == idOf a) = false := by
          have : idOf c ≠ idOf a := by
            intro h
            exact hnodup.1 (h ▸ List.mem_map_of_mem idOf hmem')
          simpa using this
        simp only [List.find?_cons, hne]
        exact ih hmem' hnodup.2

/-- Folding `(· + f ·)` from `init` is `init` plus the mapped sum. -/
theorem foldl_add_eq_sum {α : Type} (f : α → Int) (l : List α) (init : Int) :
    l.foldl (fun t a => t + f a) init = init + (l.map f).sum := by
  induction l generalizing init with
  | nil => simp
  | cons x xs ih => simp only [List.foldl_cons, List.map_cons, List.sum_cons, ih]; ring

/-- Lemma: `sumScores` as a mapped sum. -/
theorem sumScores_eq (answers : List Answer) :
    sumScores answers = (answers.map (fun a => a.score.getD 0)).sum := by
  simpa using foldl_add_eq_sum (fun a => a.score.getD 0) answers 0

/-- Lemma: `sumPoints` as a mapped sum. -/
theorem sumPoints_eq (questions : List Question) :
    sumPoints questions = (questions.map Question.points).sum := by
  simpa using foldl_add_eq_sum Question.points questions 0

/-- The max score computed by StartAttempt equals the plain sum of points of
the exam's questions (the stable sort by `order` only permutes them). -/
theorem sumPoints_getQuestionsByExam (s : Storage) (examId : Nat) :
    sumPoints (getQuestionsByExam s examId)
      = ((s.questions.filter (fun q => q.examId == examId)).map
          Question.points).sum := by
  rw [sumPoints_eq]
  exact ((List.perm_insertionSort _ _).map Question.points).sum_eq

/-- The `Math.floor` of a millisecond difference over 1000, on timestamps in the
right order, is natural-number division. -/
theorem fdiv_cast_sub (a b : Nat) (h : b ≤ a) :
    ((a : Int) - b).fdiv 1000 = ((a - b) / 1000 : Nat) := by
  have h1 : ((a : Int) - b) = ((a - b : Nat) : Int) := by omega
  rw [h1, Int.fdiv_eq_ediv _ (by omega)]
  omega

/-! ## Frame lemmas: which storage components each primitive touches -/

/-- Lemma: `updateExamAttempt` leaves the answers map untouched. -/
theorem updateExamAttempt_answers (s : Storage) (id : Nat)
    (patch : ExamAttempt → ExamAttempt) :
    ((updateExamAttempt s id patch).2).answers = s.answers := by
  unfold updateExamAttempt
  split <;> rfl

/-- Lemma: `updateExamAttempt` leaves the questions map untouched. -/
theorem updateExamAttempt_questions (s : Storage) (id : Nat)
    (patch : ExamAttempt → ExamAttempt) :
    ((updateExamAttempt s id patch).2).questions = s.questions := by
  unfold updateExamAttempt
  split <;> rfl

/-- Lemma: `updateAnswer` leaves the attempts map untouched. -/
theorem updateAnswer_examAttempts (s : Storage) (id : Nat)
    (patch : Answer → Answer) :
    ((updateAnswer s id patch).2).examAttempts = s.examAttempts := by
  unfold updateAnswer
  split <;> rfl

/-- Lemma: `updateAnswer` leaves the questions map untouched. -/
theorem updateAnswer_questions (s : Storage) (id : Nat)
    (patch : Answer → Answer) :
    ((updateAnswer s id patch).2).questions = s.questions := by
  unfold updateAnswer
  split <;> rfl

/-- Lemma: `updateAnswer` leaves the answer-id counter untouched. -/
theorem updateAnswer_counter (s : Storage) (id : Nat)
    (patch : Answer → Answer) :
    ((updateAnswer s id patch).2).answerIdCounter = s.answerIdCounter := by
  unfold updateAnswer
  split <;> rfl

/-- Lemma: `updateGradingRequest` leaves the answers map untouched. -/
theorem updateGradingRequest_answers (s : Storage) (id : Nat)
    (patch : GradingRequest → GradingRequest) :
    ((updateGradingRequest s id patch).2).answers = s.answers := by
  unfold updateGradingRequest
  split <;> rfl

/-- Lemma: `updateGradingRequest` leaves the attempts map untouched. -/
theorem updateGradingRequest_examAttempts (s : Storage) (id : Nat)
    (patch : GradingRequest → GradingRequest) :
    ((updateGradingRequest s id patch).2).examAttempts = s.examAttempts := by
  unfold updateGradingRequest
  split <;> rfl

/-- Lemma: `updateGradingRequest` leaves the questions map untouched. -/
theorem updateGradingRequest_questions (s : Storage) (id : Nat)
    (patch : GradingRequest → GradingRequest) :
    ((updateGradingRequest s id patch).2).questions = s.questions := by
  unfold updateGradingRequest
  split <;> rfl

/-- Lemma: `updateGradingRequest` leaves the answer-id counter untouched. -/
theorem updateGradingRequest_counter (s : Storage) (id : Nat)
    (patch : GradingRequest → GradingRequest) :
    ((updateGradingRequest s id patch).2).answerIdCounter = s.answerIdCounter := by
  unfold updateGradingRequest
  split <;> rfl

/-- Lemma: `gradeStoredAnswer` leaves the questions map untouched. -/
theorem gradeStoredAnswer_questions (s : Storage) (answerId questionId : Nat)
    (answerText : String) :
    (gradeStoredAnswer s answerId questionId answerText).questions
      = s.questions := by
  unfold gradeStoredAnswer
  split
  · split
    · exact updateAnswer_questions ..
    · rfl
  · rfl

/-- Lemma: `gradeStoredAnswer` leaves the attempts map untouched. -/
theorem gradeStoredAnswer_examAttempts (s : Storage) (answerId questionId : Nat)
    (answerText : String) :
    (gradeStoredAnswer s answerId questionId answerText).examAttempts
      = s.examAttempts := by
  unfold gradeStoredAnswer
  split
  · split
    · exact updateAnswer_examAttempts ..
    · rfl
  · rfl

/-- Lemma: `gradeStoredAnswer` leaves the answer-id counter untouched. -/
theorem gradeStoredAnswer_counter (s : Storage) (answerId questionId : Nat)
    (answerText : String) :
    (gradeStoredAnswer s answerId questionId answerText).answerIdCounter
      = s.answerIdCounter := by
  unfold gradeStoredAnswer
  split
  · split
    · exact updateAnswer_counter ..
    · rfl
  · rfl

/-- C1: Completing an uncompleted attempt owned by the caller sets
`completedAt` to the current time, `timeSpent` to the floor of the elapsed
milliseconds divided by 1000, and `score` to the sum of the attempt's answer
scores with a null score counted as 0, and persists exactly these fields on
the stored attempt. -/
theorem completeAttempt_correct (caller attemptId now : Nat) (s : Storage)
    (attempt : ExamAttempt)
    (hget : getExamAttempt s attemptId = some attempt)
    (howner : attempt.userId = caller)
    (hopen : attempt.completedAt = none)
    (hstart : attempt.startedAt ≤ now) :
    ∃ u s', completeAttempt caller attemptId now s = (.ok (some u), s') ∧
      u.completedAt = some now ∧
      u.timeSpent = some (((now - attempt.startedAt) / 1000 : Nat) : Int) ∧
      u.score = some ((getAnswersByAttempt s attemptId).map
        (fun a => a.score.getD 0)).sum ∧
      u.maxScore = attempt.maxScore ∧
      getExamAttempt s' attemptId = some u ∧
      s'.answers = s.answers := by
  have hfind : s.examAttempts.find? (fun a => a.id == attemptId) = some attempt := hget
  have hid : attempt.id = attemptId := by
    simpa using List.find?_some hfind
  unfold completeAttempt
  rw [hget]
  dsimp only
  rw [if_neg (by simp [howner]), if_neg (by simp [hopen])]
  unfold updateExamAttempt
  rw [hfind]
  refine ⟨_, _, rfl, rfl, ?_, ?_, rfl, ?_, rfl⟩
  · simp only []
    rw [fdiv_cast_sub now attempt.startedAt hstart]
  · simp only []
    rw [sumScores_eq]
  · unfold getExamAttempt
    dsimp only
    rw [find?_map_replace_eq ExamAttempt.id attemptId _ s.examAttempts
      (by simpa using hid), hfind]
    rfl

theorem completeAttempt_correct_witness :
    ∃ u s', completeAttempt 20 1 61000 c1State = (.ok (some u), s') ∧
      u.completedAt = some 61000 ∧ u.timeSpent = some 60 ∧ u.score = some 5 ∧
      getExamAttempt s' 1 = some u ∧ s'.answers = c1State.answers := by
  obtain ⟨u, s', h₁, h₂, h₃, h₄, _, h₆, h₇⟩ :=
    completeAttempt_correct 20 1 61000 c1State
      { id := 1, examId := 1, userId := 20, startedAt := 1000,
        completedAt := none, score := none, maxScore := 6, timeSpent := none }
      (by decide) rfl rfl (by decide)
  refine ⟨u, s', h₁, h₂, ?_, ?_, h₆, h₇⟩
  · rw [h₃]; norm_num
  · rw [h₄]; decide

/-- C6: Once an attempt is completed, completing it again fails with 400 and
submitting an answer for it fails with 400; neither call changes the stored
attempt, so the lifecycle transition is one-way. -/
theorem attempt_lifecycle_one_way (caller attemptId t₁ t₂ qid : Nat)
    (txt : String) (s s₁ : Storage) (u : ExamAttempt)
    (h₁ : completeAttempt caller attemptId t₁ s = (.ok (some u), s₁)) :
    completeAttempt caller attemptId t₂ s₁
        = (.error (.badRequest "Attempt already completed"), s₁) ∧
    submitAnswer caller attemptId qid txt s₁
        = (.error (.badRequest "Attempt already completed"), s₁) := by
  unfold completeAttempt at h₁
  rcases hg : getExamAttempt s attemptId with _ | attempt
  · rw [hg] at h₁; simp at h₁
  · rw [hg] at h₁
    dsimp only at h₁
    by_cases howner : attempt.userId ≠ caller
    · rw [if_pos howner] at h₁; simp at h₁
    · rw [if_neg howner] at h₁
      by_cases hdone : attempt.completedAt.isSome
      · rw [if_pos hdone] at h₁; simp at h₁
      · rw [if_neg hdone] at h₁
        have hfind : s.examAttempts.find? (fun a => a.id == attemptId)
            = some attempt := hg
        unfold updateExamAttempt at h₁
        rw [hfind] at h₁
        dsimp only at h₁
        rw [Prod.mk.injEq] at h₁
        obtain ⟨hu, hs⟩ := h₁
        simp only [Except.ok.injEq, Option.some.injEq] at hu
        have hid : attempt.id = attemptId := by simpa using List.find?_some hfind
        have hgetS₁ : getExamAttempt s₁ attemptId = some u := by
          rw [← hs]
          unfold getExamAttempt
          dsimp only
          rw [find?_map_replace_eq ExamAttempt.id attemptId _ s.examAttempts
            (by simpa using hid), hfind, hu]
          rfl
        have huid : u.userId = caller := by
          rw [← hu]
          simpa using not_not.mp howner
        have hudone : u.completedAt.isSome = true := by rw [← hu]; rfl
        constructor
        · unfold completeAttempt
          rw [hgetS₁]
          dsimp only
          rw [if_neg (by simp [huid]), if_pos hudone]
        · unfold submitAnswer
          rw [hgetS₁]
          dsimp only
          rw [if_neg (by simp [huid]), if_pos hudone]

/-- C4: Starting an exam when the caller already has an uncompleted attempt
for that exam returns that existing attempt unchanged, creates nothing, and
leaves the store untouched; hence calling start twice in a row returns the
attempt created by the first call and leaves the store as after the first
call. -/
theorem startAttempt_idempotent :
    (∀ (caller examId now : Nat) (s : Storage) (exam : Exam) (a : ExamAttempt),
        getExam s examId = some exam → exam.status = "active" →
        (getExamAttemptsByUser s caller).find?
            (fun x => x.examId == examId && x.completedAt == none) = some a →
        startAttempt caller examId now s = (.ok a, s)) ∧
    (∀ (caller examId t₁ t₂ : Nat) (s s₁ : Storage) (a₁ : ExamAttempt),
        startAttempt caller examId t₁ s = (.ok a₁, s₁) →
        startAttempt caller examId t₂ s₁ = (.ok a₁, s₁)) := by
  constructor
  · intro caller examId now s exam a hexam hactive hfind
    unfold startAttempt
    rw [hexam]
    dsimp only
    rw [if_neg (by simp [hactive]), hfind]
  · intro caller examId t₁ t₂ s s₁ a₁ h₁
    unfold startAttempt at h₁
    rcases hexam : getExam s examId with _ | exam
    · rw [hexam] at h₁; simp at h₁
    · rw [hexam] at h₁
      dsimp only at h₁
      by_cases hactive : exam.status ≠ "active"
      · rw [if_pos hactive] at h₁; simp at h₁
      · rw [if_neg hactive] at h₁
        rcases hfind : (getExamAttemptsByUser s caller).find?
            (fun x => x.examId == examId && x.completedAt == none) with _ | ex
        · rw [hfind] at h₁
          unfold createExamAttempt at h₁
          dsimp only at h₁
          rw [Prod.mk.injEq] at h₁
          obtain ⟨ha, hs⟩ := h₁
          simp only [Except.ok.injEq] at ha
          unfold startAttempt
          have hexam₁ : getExam s₁ examId = some exam := by
            rw [← hs]; exact hexam
          rw [hexam₁]
          dsimp only
          rw [if_neg hactive]
          have hfind₁ : (getExamAttemptsByUser s₁ caller).find?
              (fun x => x.examId == examId && x.completedAt == none) = some a₁ := by
            rw [← hs, ← ha]
            unfold getExamAttemptsByUser at hfind ⊢
            dsimp only
            rw [List.filter_append, List.find?_append, hfind]
            simp
          rw [hfind₁]
        · rw [hfind] at h₁
          rw [Prod.mk.injEq] at h₁
          obtain ⟨ha, hs⟩ := h₁
          simp only [Except.ok.injEq] at ha
          subst hs
          subst ha
          unfold startAttempt
          rw [hexam]
          dsimp only
          rw [if_neg hactive, hfind]

theorem startAttempt_idempotent_witness :
    startAttempt 20 1 3000 (startAttempt 20 1 1000 c4State).2
        = (.ok c4Attempt, (startAttempt 20 1 1000 c4State).2) ∧
    startAttempt 20 1 2000 (startAttempt 20 1 1000 c4State).2
        = (.ok c4Attempt, (startAttempt 20 1 1000 c4State).2) :=
  ⟨ startAttempt_idempotent.1 20 1 3000 (startAttempt 20 1 1000 c4State).2
      examActive c4Attempt (by decide) rfl (by decide)
  , startAttempt_idempotent.2 20 1 1000 2000 c4State
      (startAttempt 20 1 1000 c4State).2 c4Attempt (by decide) ⟩

/-- C5: The attempt's `maxScore` is the sum of the exam's question points at
start time and is frozen thereafter: it is set from the current questions on
creation, adding a question to the exam afterwards does not change it, and
completing the attempt preserves it. -/
theorem maxScore_frozen :
    (∀ (caller examId now : Nat) (s : Storage) (exam : Exam),
        getExam s examId = some exam → exam.status = "active" →
        (getExamAttemptsByUser s caller).find?
            (fun x => x.examId == examId && x.completedAt == none) = none →
        ∃ a s₁, startAttempt caller examId now s = (.ok a, s₁) ∧
          a.maxScore = ((s.questions.filter (fun q => q.examId == examId)).map
            Question.points).sum) ∧
    (∀ (caller examId : Nat) (type text : String) (points order : Int)
        (correctAnswer : Option String) (s : Storage),
        ((addQuestion caller examId type text points order
            correctAnswer s).2).examAttempts = s.examAttempts) ∧
    (∀ (caller attemptId now i : Nat) (s : Storage),
        (getExamAttempt ((completeAttempt caller attemptId now s).2) i).map
            ExamAttempt.maxScore
          = (getExamAttempt s i).map ExamAttempt.maxScore) := by
  refine ⟨?_, ?_, ?_⟩
  · intro caller examId now s exam hexam hactive hfind
    unfold startAttempt
    rw [hexam]
    dsimp only
    rw [if_neg (by simp [hactive]), hfind]
    unfold createExamAttempt
    dsimp only
    refine ⟨_, _, rfl, ?_⟩
    exact sumPoints_getQuestionsByExam s examId
  · intro caller examId type text points order correctAnswer s
    unfold addQuestion createQuestion
    rcases getExam s examId with _ | exam
    · rfl
    · dsimp only
      by_cases h : exam.userId ≠ caller
      · rw [if_pos h]
      · rw [if_neg h]
  · intro caller attemptId now i s
    unfold completeAttempt
    rcases hg : getExamAttempt s attemptId with _ | attempt
    · rfl
    · dsimp only
      by_cases howner : attempt.userId ≠ caller
      · rw [if_pos howner]
      · rw [if_neg howner]
        by_cases hdone : attempt.completedAt.isSome
        · rw [if_pos hdone]
        · rw [if_neg hdone]
          have hfind : s.examAttempts.find? (fun a => a.id == attemptId)
              = some attempt := hg
          have hid : attempt.id = attemptId := by
            simpa using List.find?_some hfind
          unfold updateExamAttempt
          rw [hfind]
          dsimp only
          unfold getExamAttempt
          dsimp only
          by_cases hi : i = attemptId
          · subst hi
            rw [find?_map_replace_eq ExamAttempt.id i _ s.examAttempts
              (by simpa using hid), hfind]
            rfl
          · rw [find?_map_replace_ne ExamAttempt.id attemptId i _ s.examAttempts
              hi (by simpa using hid)]

theorem maxScore_frozen_witness :
    (∃ a s₁, startAttempt 20 1 1000 c5State = (.ok a, s₁) ∧
        a.maxScore = ((c5State.questions.filter (fun q => q.examId == 1)).map
          Question.points).sum) ∧
    ((addQuestion 10 1 "essay" "new" 7 1 none
        (startAttempt 20 1 1000 c5State).2).2).examAttempts
      = ((startAttempt 20 1 1000 c5State).2).examAttempts ∧
    (getExamAttempt ((completeAttempt 20 1 9000
          ((startAttempt 20 1 1000 c5State).2)).2) 1).map ExamAttempt.maxScore
      = (getExamAttempt ((startAttempt 20 1 1000 c5State).2) 1).map
          ExamAttempt.maxScore :=
  ⟨ maxScore_frozen.1 20 1 1000 c5State examActive (by decide) rfl (by decide)
  , maxScore_frozen.2.1 10 1 "essay" "new" 7 1 none (startAttempt 20 1 1000 c5State).2
  , maxScore_frozen.2.2 20 1 9000 1 (startAttempt 20 1 1000 c5State).2 ⟩

theorem attempt_lifecycle_one_way_witness :
    completeAttempt 20 1 99000 (completeAttempt 20 1 61000 c1State).2
        = (.error (.badRequest "Attempt already completed"),
           (completeAttempt 20 1 61000 c1State).2) ∧
    submitAnswer 20 1 1 "late" (completeAttempt 20 1 61000 c1State).2
        = (.error (.badRequest "Attempt already completed"),
           (completeAttempt 20 1 61000 c1State).2) :=
  attempt_lifecycle_one_way 20 1 61000 99000 1 "late" c1State
    (completeAttempt 20 1 61000 c1State).2 c6Completed (by decide)

/-- C2: Approving a pending grading request with a score not exceeding the
question's points marks the request approved with comment and `resolvedAt`,
overwrites the answer's score with the supplied score, sets `isCorrect` to
whether the score is positive, marks it manually graded, and recomputes the
completed attempt's total score as the sum of its answers' scores. -/
theorem resolveRequest_approved_correct (caller requestId now : Nat)
    (comment : Option String) (sc : Int) (s : Storage)
    (request : GradingRequest) (answer : Answer) (attempt : ExamAttempt)
    (exam : Exam) (question : Question)
    (hreq : getGradingRequest s requestId = some request)
    (hpending : request.status = "pending")
    (hans : getAnswer s request.answerId = some answer)
    (hatt : getExamAttempt s answer.attemptId = some attempt)
    (hexam : getExam s attempt.examId = some exam)
    (howner : exam.userId = caller)
    (hq : getQuestion s answer.questionId = some question)
    (hlo : 0 ≤ sc) (hhi : sc ≤ question.points) :
    ∃ req' s',
      resolveGradingRequest caller requestId "approved" comment (some sc) now s
        = (.ok (some req'), s') ∧
      req'.status = "approved" ∧ req'.resolvedAt = some now ∧
      getAnswer s' answer.id
        = some { answer with
                 score := some sc,
                 isCorrect := some (decide (sc > 0)),
                 manuallyGraded := true } ∧
      getExamAttempt s' attempt.id
        = some { attempt with
                 score := some (sumScores (getAnswersByAttempt s' attempt.id)) } := by
  have hansid : answer.id = request.answerId := by
    simpa using List.find?_some hans
  have hattid : attempt.id = answer.attemptId := by
    simpa using List.find?_some hatt
  have hfreq : s.gradingRequests.find? (fun r => r.id == requestId)
      = some request := hreq
  have hfans : s.answers.find? (fun a => a.id == answer.id) = some answer := by
    rw [hansid]; exact hans
  have hfatt : s.examAttempts.find? (fun a => a.id == attempt.id)
      = some attempt := by
    rw [hattid]; exact hatt
  unfold resolveGradingRequest
  rw [hreq]
  dsimp only
  rw [hans]
  dsimp only
  rw [hatt]
  dsimp only
  rw [hexam]
  dsimp only
  rw [if_neg (by simp [howner]), if_neg (by simp)]
  unfold updateGradingRequest
  rw [hfreq]
  dsimp only
  rw [if_pos rfl]
  have hfq : s.questions.find? (fun q => q.id == answer.questionId)
      = some question := hq
  dsimp only [getQuestion]
  rw [hfq]
  dsimp only
  rw [if_neg (by exact not_lt.mpr hhi)]
  unfold updateAnswer
  dsimp only
  rw [hfans]
  dsimp only
  unfold updateExamAttempt
  dsimp only
  rw [hfatt]
  dsimp only
  refine ⟨_, _, rfl, rfl, rfl, ?_, ?_⟩
  · dsimp only [getAnswer]
    refine (find?_map_replace_eq Answer.id answer.id ?_ s.answers ?_).trans ?_
    · rfl
    · rw [hfans]
      rfl
  · dsimp only [getExamAttempt, getAnswersByAttempt]
    refine (find?_map_replace_eq ExamAttempt.id attempt.id ?_
      s.examAttempts ?_).trans ?_
    · rfl
    · rw [hfatt]
      rfl

theorem resolveRequest_approved_correct_witness :
    ∃ req' s',
      resolveGradingRequest 10 1 "approved" (some "ok") (some 4) 9000 c2State
        = (.ok (some req'), s') ∧
      req'.status = "approved" ∧
      getAnswer s' 1
        = some { id := 1, attemptId := 1, questionId := 1,
                 answer := "essay text", isCorrect := some true,
                 score := some 4, manuallyGraded := true } ∧
      getExamAttempt s' 1
        = some { id := 1, examId := 1, userId := 20, startedAt := 1000,
                 completedAt := some 61000, score := some 6, maxScore := 7,
                 timeSpent := some 60 } := by
  obtain ⟨req', s', h₁, h₂, _, h₄, h₅⟩ :=
    resolveRequest_approved_correct 10 1 9000 (some "ok") 4 c2State
      ⟨1, 1, 5000, "pending", none, none⟩
      ⟨1, 1, 1, "essay text", some false, some 1, true⟩
      ⟨1, 1, 20, 1000, some 61000, some 3, 7, some 60⟩
      examActive
      ⟨1, 1, "essay", "q1", 5, 0, none⟩
      (by decide) rfl (by decide) (by decide) (by decide) rfl (by decide)
      (by decide) (by decide)
  have hs' : s' = (resolveGradingRequest 10 1 "approved" (some "ok") (some 4)
      9000 c2State).2 := by
    rw [h₁]
  rw [hs'] at h₄ h₅
  refine ⟨req', s', h₁, h₂, ?_, ?_⟩
  · rw [hs', h₄]
    rfl
  · rw [hs', h₅]
    decide

/-- C8 (amended): Resolving a grading request with approval validates only
the upper bound `score <= points`; a negative supplied score is accepted and
written to the answer (with `isCorrect = false`), not rejected. -/
theorem resolveRequest_negative_accepted (caller requestId now : Nat)
    (comment : Option String) (sc : Int) (s : Storage)
    (request : GradingRequest) (answer : Answer) (attempt : ExamAttempt)
    (exam : Exam) (question : Question)
    (hreq : getGradingRequest s requestId = some request)
    (hans : getAnswer s request.answerId = some answer)
    (hatt : getExamAttempt s answer.attemptId = some attempt)
    (hexam : getExam s attempt.examId = some exam)
    (howner : exam.userId = caller)
    (hq : getQuestion s answer.questionId = some question)
    (hneg : sc < 0) (hpts : 0 ≤ question.points) :
    ∃ req' s',
      resolveGradingRequest caller requestId "approved" comment (some sc) now s
        = (.ok (some req'), s') ∧
      getAnswer s' answer.id
        = some { answer with
                 score := some sc,
                 isCorrect := some false,
                 manuallyGraded := true } := by
  have hansid : answer.id = request.answerId := by
    simpa using List.find?_some hans
  have hattid : attempt.id = answer.attemptId := by
    simpa using List.find?_some hatt
  have hfreq : s.gradingRequests.find? (fun r => r.id == requestId)
      = some request := hreq
  have hfans : s.answers.find? (fun a => a.id == answer.id) = some answer := by
    rw [hansid]; exact hans
  have hfatt : s.examAttempts.find? (fun a => a.id == attempt.id)
      = some attempt := by
    rw [hattid]; exact hatt
  unfold resolveGradingRequest
  rw [hreq]
  dsimp only
  rw [hans]
  dsimp only
  rw [hatt]
  dsimp only
  rw [hexam]
  dsimp only
  rw [if_neg (by simp [howner]), if_neg (by simp)]
  unfold updateGradingRequest
  rw [hfreq]
  dsimp only
  rw [if_pos rfl]
  have hfq : s.questions.find? (fun q => q.id == answer.questionId)
      = some question := hq
  dsimp only [getQuestion]
  rw [hfq]
  dsimp only
  rw [if_neg (by omega)]
  unfold updateAnswer
  dsimp only
  rw [hfans]
  dsimp only
  unfold updateExamAttempt
  dsimp only
  rw [hfatt]
  dsimp only
  refine ⟨_, _, rfl, ?_⟩
  · dsimp only [getAnswer]
    refine (find?_map_replace_eq Answer.id answer.id ?_ s.answers ?_).trans ?_
    · rfl
    · rw [hfans]
      have hd : decide (sc > 0) = false := decide_eq_false (by omega)
      rw [hd]
      rfl

theorem resolveRequest_negative_accepted_witness :
    ∃ req' s',
      resolveGradingRequest 10 1 "approved" none (some (-2)) 9000 c2State
        = (.ok (some req'), s') ∧
      getAnswer s' 1
        = some { id := 1, attemptId := 1, questionId := 1,
                 answer := "essay text", isCorrect := some false,
                 score := some (-2), manuallyGraded := true } :=
  resolveRequest_negative_accepted 10 1 9000 none (-2) c2State
    ⟨1, 1, 5000, "pending", none, none⟩
    ⟨1, 1, 1, "essay text", some false, some 1, true⟩
    ⟨1, 1, 20, 1000, some 61000, some 3, 7, some 60⟩
    examActive
    ⟨1, 1, "essay", "q1", 5, 0, none⟩
    (by decide) (by decide) (by decide) (by decide) rfl (by decide)
    (by decide) (by decide)

theorem resolveRequest_negative_counterexample :
    isOkB (resolveGradingRequest 10 1 "approved" none (some (-2)) 9000
        c2State).1 = true ∧
    (getAnswer (resolveGradingRequest 10 1 "approved" none (some (-2)) 9000
        c2State).2 1).map Answer.score = some (some (-2)) := by
  decide

/-- C9 (amended): When resolving a grading request fails because the
supplied score exceeds the question's points, the request has already been
updated (status, comment, `resolvedAt`) before the check, so the store is
mutated; only the answers and attempts are left unchanged. -/
theorem resolveRequest_failure_mutates (caller requestId now : Nat)
    (comment : Option String) (sc : Int) (s : Storage)
    (request : GradingRequest) (answer : Answer) (attempt : ExamAttempt)
    (exam : Exam) (question : Question)
    (hreq : getGradingRequest s requestId = some request)
    (hans : getAnswer s request.answerId = some answer)
    (hatt : getExamAttempt s answer.attemptId = some attempt)
    (hexam : getExam s attempt.examId = some exam)
    (howner : exam.userId = caller)
    (hq : getQuestion s answer.questionId = some question)
    (hover : sc > question.points) :
    ∃ s',
      resolveGradingRequest caller requestId "approved" comment (some sc) now s
        = (.error (.badRequest "Score cannot exceed question points"), s') ∧
      s'.answers = s.answers ∧ s'.examAttempts = s.examAttempts ∧
      getGradingRequest s' requestId
        = some { request with
                 status := "approved", comment := comment,
                 resolvedAt := some now } := by
  have hfreq : s.gradingRequests.find? (fun r => r.id == requestId)
      = some request := hreq
  have hreqid : request.id = requestId := by
    simpa using List.find?_some hfreq
  unfold resolveGradingRequest
  rw [hreq]
  dsimp only
  rw [hans]
  dsimp only
  rw [hatt]
  dsimp only
  rw [hexam]
  dsimp only
  rw [if_neg (by simp [howner]), if_neg (by simp)]
  unfold updateGradingRequest
  rw [hfreq]
  dsimp only
  rw [if_pos rfl]
  have hfq : s.questions.find? (fun q => q.id == answer.questionId)
      = some question := hq
  dsimp only [getQuestion]
  rw [hfq]
  dsimp only
  rw [if_pos hover]
  refine ⟨_, rfl, rfl, rfl, ?_⟩
  dsimp only [getGradingRequest]
  refine (find?_map_replace_eq GradingRequest.id requestId ?_
    s.gradingRequests ?_).trans ?_
  · simpa using hreqid
  · rw [hfreq]
    rfl

theorem resolveRequest_atomicity_counterexample :
    (resolveGradingRequest 10 1 "approved" none (some 7) 9000 c2State).1
        = .error (.badRequest "Score cannot exceed question points") ∧
    (getGradingRequest (resolveGradingRequest 10 1 "approved" none (some 7)
        9000 c2State).2 1).map GradingRequest.status = some "approved" ∧
    (getGradingRequest (resolveGradingRequest 10 1 "approved" none (some 7)
        9000 c2State).2 1).map GradingRequest.resolvedAt
      = some (some 9000) := by
  decide

theorem resolveRequest_failure_mutates_witness :
    ∃ s',
      resolveGradingRequest 10 1 "approved" none (some 7) 9000 c2State
        = (.error (.badRequest "Score cannot exceed question points"), s') ∧
      s'.answers = c2State.answers ∧ s'.examAttempts = c2State.examAttempts ∧
      getGradingRequest s' 1
        = some { id := 1, answerId := 1, requestedAt := 5000,
                 status := "approved", comment := none,
                 resolvedAt := some 9000 } :=
  resolveRequest_failure_mutates 10 1 9000 none 7 c2State
    ⟨1, 1, 5000, "pending", none, none⟩
    ⟨1, 1, 1, "essay text", some false, some 1, true⟩
    ⟨1, 1, 20, 1000, some 61000, some 3, 7, some 60⟩
    examActive
    ⟨1, 1, "essay", "q1", 5, 0, none⟩
    (by decide) (by decide) (by decide) (by decide) rfl (by decide)
    (by decide)

/-- On `multiple_choice` and `true_false` questions, the inline auto-grader is
string comparison with the stored correct answer, scoring full points or 0. -/
theorem autoGrade_mc_tf (question : Question) (text : String)
    (h : question.type = "multiple_choice" ∨ question.type = "true_false") :
    autoGrade question text
      = (question.correctAnswer == some text,
         if question.correctAnswer == some text then question.points
         else 0) := by
  rcases h with h | h <;> simp [autoGrade, h]

/-- On any other non-essay type the auto-grader keeps its initialisers
`(false, 0)`. -/
theorem autoGrade_unknown (question : Question) (text : String)
    (h1 : question.type ≠ "multiple_choice")
    (h2 : question.type ≠ "true_false") :
    autoGrade question text = (false, 0) := by
  simp [autoGrade, h1, h2]

/-- C3 (amended): On submit, an essay answer is stored ungraded
(`isCorrect` and `score` both null); every non-essay answer is stored with
the auto-grader's result, so a question of an unknown type is stored as
incorrect with score 0 rather than left ungraded. Multiple-choice,
true/false and short-answer comparisons are exact string equality against
`correctAnswer`, worth full points or 0. -/
theorem submitAnswer_grading (caller attemptId questionId : Nat)
    (text : String) (s : Storage) (attempt : ExamAttempt)
    (question : Question)
    (hatt : getExamAttempt s attemptId = some attempt)
    (howner : attempt.userId = caller)
    (hopen : attempt.completedAt = none)
    (hnone : (getAnswersByAttempt s attemptId).find?
        (fun a => a.questionId == questionId) = none)
    (hq : getQuestion s questionId = some question)
    (hfresh : ∀ a ∈ s.answers, a.id < s.answerIdCounter) :
    ∃ resp s', submitAnswer caller attemptId questionId text s
        = (.ok (some resp), s') ∧
      ∃ stored, getAnswer s' resp.id = some stored ∧
        ((question.type = "multiple_choice" ∨ question.type = "true_false") →
            stored.isCorrect = some (question.correctAnswer == some text) ∧
            stored.score = some (if question.correctAnswer == some text
              then question.points else 0)) ∧
        (question.type = "essay" →
            stored.isCorrect = none ∧ stored.score = none) ∧
        (question.type ≠ "multiple_choice" → question.type ≠ "true_false" →
          question.type ≠ "essay" →
            stored.isCorrect = some false ∧ stored.score = some 0) := by
  have hfid : s.answers.find? (fun a => a.id == s.answerIdCounter) = none := by
    rw [List.find?_eq_none]
    intro a ha
    have := hfresh a ha
    simp
    omega
  unfold submitAnswer
  rw [hatt]
  dsimp only
  rw [if_neg (by simp [howner]), if_neg (by simp [hopen]), hnone]
  unfold createAnswer
  dsimp only
  unfold gradeStoredAnswer
  have hfq : s.questions.find? (fun q => q.id == questionId)
      = some question := hq
  dsimp only [getQuestion]
  rw [hfq]
  dsimp only
  have hfone :
      (([ { id := s.answerIdCounter, attemptId := attemptId,
            questionId := questionId, answer := text, isCorrect := none,
            score := none, manuallyGraded := false } ] : List Answer).find?
        (fun a => a.id == s.answerIdCounter))
      = some { id := s.answerIdCounter, attemptId := attemptId,
               questionId := questionId, answer := text, isCorrect := none,
               score := none, manuallyGraded := false } := by
    simp [List.find?_cons]
  by_cases hess : question.type = "essay"
  · rw [if_neg (by simp [hess])]
    refine ⟨_, _, rfl, ?_⟩
    refine ⟨{ id := s.answerIdCounter, attemptId := attemptId,
              questionId := questionId, answer := text, isCorrect := none,
              score := none, manuallyGraded := false }, ?_, ?_, ?_, ?_⟩
    · dsimp only [getAnswer]
      rw [List.find?_append, hfid, Option.none_or, hfone]
    · intro h
      rcases h with h | h <;> rw [hess] at h <;> simp at h
    · intro _
      exact ⟨rfl, rfl⟩
    · intro _ _ h
      exact absurd hess h
  · rw [if_pos hess]
    unfold updateAnswer
    dsimp only
    rw [List.find?_append, hfid, Option.none_or, hfone]
    dsimp only
    refine ⟨_, _, rfl, ?_⟩
    refine ⟨{ id := s.answerIdCounter, attemptId := attemptId,
              questionId := questionId, answer := text,
              isCorrect := some (autoGrade question text).1,
              score := some (autoGrade question text).2,
              manuallyGraded := false }, ?_, ?_, ?_, ?_⟩
    · dsimp only [getAnswer]
      refine (find?_map_replace_eq Answer.id s.answerIdCounter ?_
        (s.answers ++ [_]) ?_).trans ?_
      · rfl
      · rw [List.find?_append, hfid, Option.none_or, hfone]
        rfl
    · intro h
      rw [autoGrade_mc_tf question text h]
      exact ⟨rfl, rfl⟩
    · intro h
      exact absurd h hess
    · intro h1 h2 _
      rw [autoGrade_unknown question text h1 h2]
      exact ⟨rfl, rfl⟩

theorem submitAnswer_unknownType_counterexample :
    (getAnswer (submitAnswer 20 1 1 "hello" c3State).2 1).map Answer.isCorrect
        = some (some false) ∧
    (getAnswer (submitAnswer 20 1 1 "hello" c3State).2 1).map Answer.score
        = some (some 0) := by
  decide

theorem submitAnswer_grading_witness :
    ∃ resp s', submitAnswer 20 1 1 "hello" c3State = (.ok (some resp), s') ∧
      ∃ stored, getAnswer s' resp.id = some stored ∧
        ((("short_answer" : String) = "multiple_choice" ∨
            ("short_answer" : String) = "true_false") →
            stored.isCorrect = some (some "x" == some "hello") ∧
            stored.score = some (if some "x" == some "hello" then (5 : Int)
              else 0)) ∧
        (("short_answer" : String) = "essay" →
            stored.isCorrect = none ∧ stored.score = none) ∧
        (("short_answer" : String) ≠ "multiple_choice" →
          ("short_answer" : String) ≠ "true_false" →
          ("short_answer" : String) ≠ "essay" →
            stored.isCorrect = some false ∧ stored.score = some 0) :=
  submitAnswer_grading 20 1 1 "hello" c3State
    ⟨1, 1, 20, 1000, none, none, 5, none⟩
    ⟨1, 1, "short_answer", "q", 5, 0, some "x"⟩
    (by decide) rfl rfl (by decide) (by decide) (by decide)

/-- C10: The answer object returned by submit is a snapshot taken before the
same call's auto-grading is persisted: a first submission to a graded
question type returns `isCorrect = null` and `score = null` while the stored
answer carries the auto-grade, and a re-submission returns the previous
grading's `isCorrect` and `score` (with the new answer text), not the values
recomputed from the new text, which are only in the store. -/
theorem submitAnswer_response_snapshot :
    (∀ (caller attemptId questionId : Nat) (text : String) (s : Storage)
        (attempt : ExamAttempt) (question : Question),
        getExamAttempt s attemptId = some attempt →
        attempt.userId = caller → attempt.completedAt = none →
        (getAnswersByAttempt s attemptId).find?
            (fun a => a.questionId == questionId) = none →
        getQuestion s questionId = some question →
        (question.type = "multiple_choice" ∨ question.type = "true_false") →
        (∀ a ∈ s.answers, a.id < s.answerIdCounter) →
        ∃ resp s', submitAnswer caller attemptId questionId text s
            = (.ok (some resp), s') ∧
          resp.isCorrect = none ∧ resp.score = none ∧
          getAnswer s' resp.id
            = some { resp with
                     isCorrect := some (question.correctAnswer == some text),
                     score := some (if question.correctAnswer == some text
                       then question.points else 0) }) ∧
    (∀ (caller attemptId questionId : Nat) (text : String) (s : Storage)
        (attempt : ExamAttempt) (ea : Answer) (question : Question),
        getExamAttempt s attemptId = some attempt →
        attempt.userId = caller → attempt.completedAt = none →
        (getAnswersByAttempt s attemptId).find?
            (fun a => a.questionId == questionId) = some ea →
        getQuestion s questionId = some question →
        (question.type = "multiple_choice" ∨ question.type = "true_false") →
        (s.answers.map Answer.id).Nodup →
        ∃ s', submitAnswer caller attemptId questionId text s
            = (.ok (some { ea with answer := text }), s') ∧
          getAnswer s' ea.id
            = some { ea with
                     answer := text,
                     isCorrect := some (question.correctAnswer == some text),
                     score := some (if question.correctAnswer == some text
                       then question.points else 0) }) := by
  constructor
  · intro caller attemptId questionId text s attempt question hatt howner
      hopen hnone hq htype hfresh
    have hess : question.type ≠ "essay" := by
      rcases htype with h | h <;> simp [h]
    have hfid : s.answers.find? (fun a => a.id == s.answerIdCounter)
        = none := by
      rw [List.find?_eq_none]
      intro a ha
      have := hfresh a ha
      simp
      omega
    have hfone :
        (([ { id := s.answerIdCounter, attemptId := attemptId,
              questionId := questionId, answer := text, isCorrect := none,
              score := none, manuallyGraded := false } ] : List Answer).find?
          (fun a => a.id == s.answerIdCounter))
        = some { id := s.answerIdCounter, attemptId := attemptId,
                 questionId := questionId, answer := text, isCorrect := none,
                 score := none, manuallyGraded := false } := by
      simp [List.find?_cons]
    unfold submitAnswer
    rw [hatt]
    dsimp only
    rw [if_neg (by simp [howner]), if_neg (by simp [hopen]), hnone]
    unfold createAnswer
    dsimp only
    unfold gradeStoredAnswer
    have hfq : s.questions.find? (fun q => q.id == questionId)
        = some question := hq
    dsimp only [getQuestion]
    rw [hfq]
    dsimp only
    rw [if_pos hess]
    unfold updateAnswer
    dsimp only
    rw [List.find?_append, hfid, Option.none_or, hfone]
    dsimp only
    rw [autoGrade_mc_tf question text htype]
    refine ⟨_, _, rfl, rfl, rfl, ?_⟩
    dsimp only [getAnswer]
    refine (find?_map_replace_eq Answer.id s.answerIdCounter ?_
      (s.answers ++ [_]) ?_).trans ?_
    · rfl
    · rw [List.find?_append, hfid, Option.none_or, hfone]
      rfl
  · intro caller attemptId questionId text s attempt ea question hatt howner
      hopen hfind hq htype hnodup
    have hess : question.type ≠ "essay" := by
      rcases htype with h | h <;> simp [h]
    have hmem : ea ∈ s.answers := by
      have h₁ := List.mem_of_find?_eq_some hfind
      unfold getAnswersByAttempt at h₁
      exact List.mem_of_mem_filter h₁
    have hfea : s.answers.find? (fun b => b.id == ea.id) = some ea :=
      find?_id_of_nodup Answer.id s.answers ea hmem hnodup
    unfold submitAnswer
    rw [hatt]
    dsimp only
    rw [if_neg (by simp [howner]), if_neg (by simp [hopen]), hfind]
    unfold updateAnswer
    dsimp only
    rw [hfea]
    dsimp only
    unfold gradeStoredAnswer
    have hfq : s.questions.find? (fun q => q.id == questionId)
        = some question := hq
    dsimp only [getQuestion]
    rw [hfq]
    dsimp only
    rw [if_pos hess]
    have h₂ : (s.answers.map (fun b => if b.id == ea.id
        then { ea with answer := text } else b)).find?
          (fun b => b.id == ea.id) = some { ea with answer := text } := by
      rw [find?_map_replace_eq Answer.id ea.id { ea with answer := text }
        s.answers rfl, hfea]
      rfl
    unfold updateAnswer
    dsimp only
    rw [h₂]
    dsimp only
    rw [autoGrade_mc_tf question text htype]
    refine ⟨_, rfl, ?_⟩
    dsimp only [getAnswer]
    refine (find?_map_replace_eq Answer.id ea.id ?_ _ ?_).trans ?_
    · rfl
    · rw [h₂]
      rfl

theorem submitAnswer_response_snapshot_witness :
    (∃ resp s', submitAnswer 20 1 2 "false" c10State
        = (.ok (some resp), s') ∧
      resp.isCorrect = none ∧ resp.score = none ∧
      getAnswer s' resp.id
        = some { resp with
                 isCorrect := some (some "true" == some "false"),
                 score := some (if some "true" == some "false" then (2 : Int)
                   else 0) }) ∧
    (∃ s', submitAnswer 20 1 1 "B" c10State
        = (.ok (some { c10Answer with answer := "B" }), s') ∧
      getAnswer s' 1
        = some { c10Answer with
                 answer := "B",
                 isCorrect := some (some "A" == some "B"),
                 score := some (if some "A" == some "B" then (1 : Int)
                   else 0) }) :=
  ⟨ submitAnswer_response_snapshot.1 20 1 2 "false" c10State
      ⟨1, 1, 20, 1000, none, none, 3, none⟩
      ⟨2, 1, "true_false", "q2", 2, 1, some "true"⟩
      (by decide) rfl rfl (by decide) (by decide) (by decide) (by decide)
  , submitAnswer_response_snapshot.2 20 1 1 "B" c10State
      ⟨1, 1, 20, 1000, none, none, 3, none⟩
      c10Answer
      ⟨1, 1, "multiple_choice", "q1", 1, 0, some "A"⟩
      (by decide) rfl rfl (by decide) (by decide) (by decide) (by decide) ⟩

/-! ## Preservation machinery for the score-bounds invariant -/

/-- A pointwise property survives replacing some entries by a value that
also satisfies it. -/
theorem forall_mem_map_replace {α : Type} (P : α → Prop) (c : α → Bool)
    (u : α) (l : List α) (hl : ∀ a ∈ l, P a) (hu : P u) :
    ∀ a ∈ l.map (fun b => if c b then u else b), P a := by
  intro a ha
  rcases List.mem_map.mp ha with ⟨b, hb, rfl⟩
  by_cases h : c b
  · simpa [h] using hu
  · simpa [h] using hl b hb

/-- A pointwise property survives appending a value that satisfies it. -/
theorem forall_mem_append_singleton {α : Type} (P : α → Prop) (u : α)
    (l : List α) (hl : ∀ a ∈ l, P a) (hu : P u) :
    ∀ a ∈ l ++ [u], P a := by
  intro a ha
  rcases List.mem_append.mp ha with h | h
  · exact hl a h
  · rcases List.mem_singleton.mp h with rfl
    exact hu

/-- The auto-grader's score is always between `0` and the question's points
(when the points are nonnegative): it is either `points` or `0`. -/
theorem autoGrade_score_bounds (q : Question) (t : String)
    (h : 0 ≤ q.points) :
    0 ≤ (autoGrade q t).2 ∧ (autoGrade q t).2 ≤ q.points := by
  by_cases h1 : q.type = "multiple_choice"
  · rw [autoGrade_mc_tf q t (Or.inl h1)]
    dsimp only
    refine ⟨?_, ?_⟩ <;> split <;> omega
  · by_cases h2 : q.type = "true_false"
    · rw [autoGrade_mc_tf q t (Or.inr h2)]
      dsimp only
      refine ⟨?_, ?_⟩ <;> split <;> omega
    · rw [autoGrade_unknown q t h1 h2]
      exact ⟨le_refl 0, h⟩

/-- Lemma: `answerUnderMax` only looks at `score` and `questionId`, so overwriting
the answer text preserves it. -/
theorem answerUnderMax_text (qs : List Question) (a : Answer) (t : String) :
    answerUnderMax qs { a with answer := t } = answerUnderMax qs a := rfl

/-- Likewise for `answerInBounds`. -/
theorem answerInBounds_text (qs : List Question) (a : Answer) (t : String) :
    answerInBounds qs { a with answer := t } = answerInBounds qs a := rfl

/-- A freshly graded answer is under its question's maximum whenever the
written score is. -/
theorem answerUnderMax_graded (qs : List Question) (a : Answer)
    (q : Question) (ic : Bool) (mg : Bool) (sc : Int)
    (hfind : qs.find? (fun x => x.id == a.questionId) = some q)
    (hsc : sc ≤ q.points) :
    answerUnderMax qs
      { a with isCorrect := some ic, score := some sc,
               manuallyGraded := mg } = true := by
  unfold answerUnderMax
  dsimp only
  rw [hfind]
  simpa using hsc

/-- A freshly graded answer is in bounds whenever the written score is. -/
theorem answerInBounds_graded (qs : List Question) (a : Answer)
    (q : Question) (ic : Bool) (mg : Bool) (sc : Int)
    (hfind : qs.find? (fun x => x.id == a.questionId) = some q)
    (hlo : 0 ≤ sc) (hsc : sc ≤ q.points) :
    answerInBounds qs
      { a with isCorrect := some ic, score := some sc,
               manuallyGraded := mg } = true := by
  unfold answerInBounds
  dsimp only
  rw [hfind]
  simp [hlo, hsc]

/-- Lemma: `updateExamAttempt` leaves the answer-id counter untouched. -/
theorem updateExamAttempt_counter (s : Storage) (id : Nat)
    (patch : ExamAttempt → ExamAttempt) :
    ((updateExamAttempt s id patch).2).answerIdCounter = s.answerIdCounter := by
  unfold updateExamAttempt
  split <;> rfl

/-- Lemma: `createGradingRequest` leaves the answers map untouched. -/
theorem createGradingRequest_answers (s : Storage) (answerId : Nat)
    (comment : Option String) (now : Nat) :
    ((createGradingRequest s answerId comment now).2).answers = s.answers := rfl

/-- Lemma: `createGradingRequest` leaves the questions map untouched. -/
theorem createGradingRequest_questions (s : Storage) (answerId : Nat)
    (comment : Option String) (now : Nat) :
    ((createGradingRequest s answerId comment now).2).questions
      = s.questions := rfl

/-- Lemma: `createGradingRequest` leaves the answer-id counter untouched. -/
theorem createGradingRequest_counter (s : Storage) (answerId : Nat)
    (comment : Option String) (now : Nat) :
    ((createGradingRequest s answerId comment now).2).answerIdCounter
      = s.answerIdCounter := rfl

/-- Replacing the entries keyed by `k` with a record whose id is `k` leaves
the id list unchanged. -/
theorem map_replace_ids {α : Type} (idOf : α → Nat) (k : Nat) (u : α)
    (l : List α) (hu : idOf u = k) :
    (l.map (fun b => if idOf b == k then u else b)).map idOf
      = l.map idOf := by
  rw [List.map_map]
  apply List.map_congr_left
  intro b _
  by_cases h : idOf b = k
  · simp [Function.comp, h, hu]
  · simp [Function.comp, h]

/-- Lemma: `updateAnswer` with an id-preserving patch preserves well-formedness. -/
theorem updateAnswer_wf (s : Storage) (k : Nat) (patch : Answer → Answer)
    (hid : ∀ a, (patch a).id = a.id) (hwf : answersWf s) :
    answersWf ((updateAnswer s k patch).2) := by
  unfold updateAnswer
  rcases h : s.answers.find? (fun a => a.id == k) with _ | a₀
  · rw [h]
    exact hwf
  · rw [h]
    dsimp only
    have hk : a₀.id = k := by simpa using List.find?_some h
    have hu : (patch a₀).id = k := by rw [hid a₀, hk]
    unfold answersWf
    dsimp only
    constructor
    · refine forall_mem_map_replace _ _ _ _ hwf.1 ?_
      rw [hu, ← hk]
      exact hwf.1 a₀ (List.mem_of_find?_eq_some h)
    · rw [map_replace_ids Answer.id k (patch a₀) s.answers hu]
      exact hwf.2

/-- Lemma: `createAnswer` allocates a fresh id, preserving well-formedness. -/
theorem createAnswer_wf (s : Storage) (attemptId questionId : Nat)
    (t : String) (hwf : answersWf s) :
    answersWf ((createAnswer s attemptId questionId t).2) := by
  unfold createAnswer answersWf
  dsimp only
  constructor
  · intro a ha
    rcases List.mem_append.mp ha with h | h
    · have := hwf.1 a h
      omega
    · rcases List.mem_singleton.mp h with rfl
      dsimp only
      omega
  · rw [List.map_append]
    refine List.Nodup.append hwf.2 (List.nodup_singleton _) ?_
    intro x hx hx2
    rcases List.mem_map.mp hx with ⟨b, hb, rfl⟩
    have h1 := hwf.1 b hb
    have h2 : b.id = s.answerIdCounter := by simpa using hx2
    omega

/-- Lemma: `gradeStoredAnswer` preserves well-formedness. -/
theorem gradeStoredAnswer_wf (s : Storage) (answerId questionId : Nat)
    (t : String) (hwf : answersWf s) :
    answersWf (gradeStoredAnswer s answerId questionId t) := by
  unfold gradeStoredAnswer
  split
  · split
    · exact updateAnswer_wf _ _ _ (fun a => rfl) hwf
    · exact hwf
  · exact hwf

/-- Lemma: `updateExamAttempt` preserves well-formedness (it touches neither the
answers nor the counter). -/
theorem updateExamAttempt_wf (s : Storage) (id : Nat)
    (patch : ExamAttempt → ExamAttempt) (hwf : answersWf s) :
    answersWf ((updateExamAttempt s id patch).2) := by
  unfold answersWf
  rw [updateExamAttempt_answers, updateExamAttempt_counter]
  exact hwf

/-- Lemma: `updateGradingRequest` preserves well-formedness. -/
theorem updateGradingRequest_wf (s : Storage) (id : Nat)
    (patch : GradingRequest → GradingRequest) (hwf : answersWf s) :
    answersWf ((updateGradingRequest s id patch).2) := by
  unfold answersWf
  rw [updateGradingRequest_answers, updateGradingRequest_counter]
  exact hwf

/-- Lemma: `createGradingRequest` preserves well-formedness. -/
theorem createGradingRequest_wf (s : Storage) (answerId : Nat)
    (comment : Option String) (now : Nat) (hwf : answersWf s) :
    answersWf ((createGradingRequest s answerId comment now).2) := by
  unfold answersWf
  rw [createGradingRequest_answers, createGradingRequest_counter]
  exact hwf

/-- None of the four grading operations changes the questions map. -/
theorem applyOp_questions (s : Storage) (o : Op) :
    (applyOp s o).questions = s.questions := by
  rcases o with ⟨c, aid, qid, t⟩ | ⟨c, aid, sc, ic⟩ | ⟨c, aid, cm, n⟩ |
    ⟨c, rid, st, cm, sc, n⟩ <;>
    dsimp only [applyOp]
  · unfold submitAnswer
    repeat' split
    all_goals
      simp [gradeStoredAnswer_questions, updateAnswer_questions, createAnswer]
  · unfold gradeAnswer
    repeat' split
    all_goals
      simp [updateExamAttempt_questions, updateAnswer_questions]
  · unfold requestReview
    repeat' split
    all_goals
      simp [createGradingRequest_questions, createGradingRequest]
  · unfold resolveGradingRequest
    rcases hreq : getGradingRequest s rid with _ | request
    · try rw [hreq]
      try rfl
    · try rw [hreq]
      dsimp only
      rcases hans : getAnswer s request.answerId with _ | answer
      · try rw [hans]
        try rfl
      · try rw [hans]
        dsimp only
        rcases hatt : getExamAttempt s answer.attemptId with _ | attempt
        · try rw [hatt]
          try rfl
        · try rw [hatt]
          dsimp only
          rcases hexam : getExam s attempt.examId with _ | exam
          · try rw [hexam]
            try rfl
          · try rw [hexam]
            dsimp only
            by_cases h1 : exam.userId ≠ c
            · rw [if_pos h1]
            · rw [if_neg h1]
              by_cases h2 : ¬(st = "approved" ∨ st = "rejected")
              · rw [if_pos h2]
              · rw [if_neg h2]
                by_cases h3 : st = "approved"
                · rw [if_pos h3]
                  rcases sc with _ | sc'
                  · dsimp only
                    rw [updateGradingRequest_questions]
                  · dsimp only
                    rcases hq : getQuestion ((updateGradingRequest s rid
                        (fun r => { r with status := st, comment := cm, resolvedAt := some n })).2)
                        answer.questionId with _ | question
                    · try rw [hq]
                      dsimp only
                      rw [updateGradingRequest_questions]
                    · try rw [hq]
                      dsimp only
                      by_cases h4 : sc' > question.points
                      · rw [if_pos h4]
                        dsimp only
                        rw [updateGradingRequest_questions]
                      · rw [if_neg h4]
                        dsimp only
                        rw [updateExamAttempt_questions,
                          updateAnswer_questions,
                          updateGradingRequest_questions]
                · rw [if_neg h3]
                  dsimp only
                  rw [updateGradingRequest_questions]

/-- None of the four grading operations breaks answers-map well-formedness. -/
theorem applyOp_wf (s : Storage) (o : Op) (hwf : answersWf s) :
    answersWf (applyOp s o) := by
  rcases o with ⟨c, aid, qid, t⟩ | ⟨c, aid, sc, ic⟩ | ⟨c, aid, cm, n⟩ |
    ⟨c, rid, st, cm, sc, n⟩ <;>
    dsimp only [applyOp]
  · unfold submitAnswer
    repeat' split
    all_goals
      first
        | exact hwf
        | exact gradeStoredAnswer_wf _ _ _ _ (createAnswer_wf _ _ _ _ hwf)
        | exact gradeStoredAnswer_wf _ _ _ _
            (updateAnswer_wf _ _ _ (fun a => rfl) hwf)
  · unfold gradeAnswer
    repeat' split
    all_goals
      first
        | exact hwf
        | exact updateExamAttempt_wf _ _ _
            (updateAnswer_wf _ _ _ (fun a => rfl) hwf)
  · unfold requestReview
    repeat' split
    all_goals
      first
        | exact hwf
        | exact createGradingRequest_wf _ _ _ _ hwf
  · unfold resolveGradingRequest
    rcases hreq : getGradingRequest s rid with _ | request
    · try rw [hreq]
      exact hwf
    · try rw [hreq]
      dsimp only
      rcases hans : getAnswer s request.answerId with _ | answer
      · try rw [hans]
        exact hwf
      · try rw [hans]
        dsimp only
        rcases hatt : getExamAttempt s answer.attemptId with _ | attempt
        · try rw [hatt]
          exact hwf
        · try rw [hatt]
          dsimp only
          rcases hexam : getExam s attempt.examId with _ | exam
          · try rw [hexam]
            exact hwf
          · try rw [hexam]
            dsimp only
            by_cases h1 : exam.userId ≠ c
            · rw [if_pos h1]
              exact hwf
            · rw [if_neg h1]
              by_cases h2 : ¬(st = "approved" ∨ st = "rejected")
              · rw [if_pos h2]
                exact hwf
              · rw [if_neg h2]
                by_cases h3 : st = "approved"
                · rw [if_pos h3]
                  rcases sc with _ | sc'
                  · dsimp only
                    exact updateGradingRequest_wf _ _ _ hwf
                  · dsimp only
                    rcases hq : getQuestion ((updateGradingRequest s rid
                        (fun r => { r with status := st, comment := cm, resolvedAt := some n })).2)
                        answer.questionId with _ | question
                    · try rw [hq]
                      exact updateGradingRequest_wf _ _ _ hwf
                    · try rw [hq]
                      dsimp only
                      by_cases h4 : sc' > question.points
                      · rw [if_pos h4]
                        exact updateGradingRequest_wf _ _ _ hwf
                      · rw [if_neg h4]
                        dsimp only
                        exact updateExamAttempt_wf _ _ _
                          (updateAnswer_wf _ _ _ (fun a => rfl)
                            (updateGradingRequest_wf _ _ _ hwf))
                · rw [if_neg h3]
                  dsimp only
                  exact updateGradingRequest_wf _ _ _ hwf

/-- Lemma: `updateAnswer` preserves a pointwise answer property when the patched
record satisfies it. -/
theorem updateAnswer_pred (B : Answer → Bool) (s : Storage) (k : Nat)
    (patch : Answer → Answer)
    (hall : ∀ a ∈ s.answers, B a = true)
    (hpatch : ∀ a₀, s.answers.find? (fun b => b.id == k) = some a₀ →
        B (patch a₀) = true) :
    ∀ a ∈ ((updateAnswer s k patch).2).answers, B a = true := by
  unfold updateAnswer
  rcases h : s.answers.find? (fun a => a.id == k) with _ | a₀
  · try rw [h]
    exact hall
  · try rw [h]
    dsimp only
    exact forall_mem_map_replace _ _ _ _ hall (hpatch a₀ h)

/-- Lemma: `gradeStoredAnswer` preserves a pointwise answer property when every
record it could write satisfies it. -/
theorem gradeStoredAnswer_pred (B : Answer → Bool) (s : Storage)
    (answerId questionId : Nat) (t : String)
    (hall : ∀ a ∈ s.answers, B a = true)
    (hgrade : ∀ a₀ q, s.answers.find? (fun b => b.id == answerId) = some a₀ →
        s.questions.find? (fun x => x.id == questionId) = some q →
        q.type ≠ "essay" →
        B { a₀ with isCorrect := some (autoGrade q t).1,
                    score := some (autoGrade q t).2 } = true) :
    ∀ a ∈ (gradeStoredAnswer s answerId questionId t).answers, B a = true := by
  unfold gradeStoredAnswer
  rcases hq : getQuestion s questionId with _ | q
  · try rw [hq]
    exact hall
  · try rw [hq]
    dsimp only
    by_cases hess : q.type ≠ "essay"
    · rw [if_pos hess]
      exact updateAnswer_pred B s answerId _ hall
        (fun a₀ h => hgrade a₀ q h hq hess)
    · rw [if_neg hess]
      exact hall

/-- Main preservation lemma: a pointwise answer property that holds for
fresh (ungraded) answers, is insensitive to answer-text changes, and is
stable under every score the operation can write, survives any one grading
operation. `hGradeAny` is only consulted when the operation is a
grading-request resolution carrying a negative score (the one unchecked
write in the code). -/
theorem applyOp_pred (s : Storage) (o : Op) (B : Answer → Bool)
    (hwf : answersWf s)
    (hqpts : ∀ q ∈ s.questions, 0 ≤ q.points)
    (hText : ∀ (a : Answer) (t : String), B { a with answer := t } = B a)
    (hNew : ∀ (aid atid qid : Nat) (t : String),
        B { id := aid, attemptId := atid, questionId := qid, answer := t,
            isCorrect := none, score := none, manuallyGraded := false }
          = true)
    (hGrade : ∀ (a : Answer) (q : Question) (ic mg : Bool) (sc : Int),
        s.questions.find? (fun x => x.id == a.questionId) = some q →
        0 ≤ sc → sc ≤ q.points →
        B { a with isCorrect := some ic, score := some sc,
                   manuallyGraded := mg } = true)
    (hGradeAny : opScoreNonneg o = false →
        ∀ (a : Answer) (q : Question) (ic mg : Bool) (sc : Int),
        s.questions.find? (fun x => x.id == a.questionId) = some q →
        sc ≤ q.points →
        B { a with isCorrect := some ic, score := some sc,
                   manuallyGraded := mg } = true)
    (hall : ∀ a ∈ s.answers, B a = true) :
    ∀ a ∈ (applyOp s o).answers, B a = true := by
  rcases o with ⟨c, aid, qid, t⟩ | ⟨c, aid, sc, ic⟩ | ⟨c, aid, cm, n⟩ |
    ⟨c, rid, st, cm, sc, n⟩ <;> dsimp only [applyOp]
  · -- SubmitAnswer
    unfold submitAnswer
    rcases hatt : getExamAttempt s aid with _ | attempt
    · try rw [hatt]
      exact hall
    · try rw [hatt]
      dsimp only
      by_cases h1 : attempt.userId ≠ c
      · rw [if_pos h1]
        exact hall
      · rw [if_neg h1]
        by_cases h2 : attempt.completedAt.isSome
        · rw [if_pos h2]
          exact hall
        · rw [if_neg h2]
          rcases hfind : (getAnswersByAttempt s aid).find?
              (fun a => a.questionId == qid) with _ | ea
          · -- create path
            try rw [hfind]
            unfold createAnswer
            dsimp only
            have hfid : s.answers.find?
                (fun b => b.id == s.answerIdCounter) = none := by
              rw [List.find?_eq_none]
              intro a ha
              have := hwf.1 a ha
              simp
              omega
            refine gradeStoredAnswer_pred B _ _ _ _ ?_ ?_
            · exact forall_mem_append_singleton _ _ _ hall (hNew _ _ _ _)
            · intro a₀ q hfa hfq hess
              rw [List.find?_append, hfid, Option.none_or] at hfa
              simp only [List.find?_cons, beq_self_eq_true,
                Option.some.injEq] at hfa
              subst hfa
              rcases autoGrade_score_bounds q t
                (hqpts q (List.mem_of_find?_eq_some hfq)) with ⟨hb1, hb2⟩
              exact hGrade _ q (autoGrade q t).1 false (autoGrade q t).2
                hfq hb1 hb2
          · -- update (resubmission) path
            try rw [hfind]
            have hmem : ea ∈ s.answers := by
              have h₁ := List.mem_of_find?_eq_some hfind
              unfold getAnswersByAttempt at h₁
              exact List.mem_of_mem_filter h₁
            have hqidea : ea.questionId = qid := by
              simpa using List.find?_some hfind
            have hfea : s.answers.find? (fun b => b.id == ea.id) = some ea :=
              find?_id_of_nodup Answer.id s.answers ea hmem hwf.2
            unfold updateAnswer
            dsimp only
            try rw [hfea]
            dsimp only
            refine gradeStoredAnswer_pred B _ _ _ _ ?_ ?_
            · refine forall_mem_map_replace _ _ _ _ hall ?_
              rw [hText ea t]
              exact hall ea hmem
            · intro a₀ q hfa hfq hess
              rw [find?_map_replace_eq Answer.id ea.id
                { ea with answer := t } s.answers rfl, hfea] at hfa
              have hfa' : ({ ea with answer := t } : Answer) = a₀ :=
                Option.some.inj hfa
              subst hfa'
              rcases autoGrade_score_bounds q t
                (hqpts q (List.mem_of_find?_eq_some hfq)) with ⟨hb1, hb2⟩
              refine hGrade { ea with answer := t } q (autoGrade q t).1
                ea.manuallyGraded (autoGrade q t).2 ?_ hb1 hb2
              try simp only [hqidea]
              try rw [hqidea]
              exact hfq
  · -- manual grading
    unfold gradeAnswer
    rcases hans : getAnswer s aid with _ | answer
    · try rw [hans]
      exact hall
    · try rw [hans]
      dsimp only
      rcases hatt : getExamAttempt s answer.attemptId with _ | attempt
      · try rw [hatt]
        exact hall
      · try rw [hatt]
        dsimp only
        rcases hexam : getExam s attempt.examId with _ | exam
        · try rw [hexam]
          exact hall
        · try rw [hexam]
          dsimp only
          by_cases h1 : exam.userId ≠ c
          · rw [if_pos h1]
            exact hall
          · rw [if_neg h1]
            by_cases h2 : sc < 0
            · rw [if_pos h2]
              exact hall
            · rw [if_neg h2]
              rcases hq : getQuestion s answer.questionId with _ | question
              · try rw [hq]
                exact hall
              · try rw [hq]
                dsimp only
                by_cases h3 : sc > question.points
                · rw [if_pos h3]
                  exact hall
                · rw [if_neg h3]
                  dsimp only
                  intro a ha
                  rw [updateExamAttempt_answers] at ha
                  refine updateAnswer_pred B s aid _ hall ?_ a ha
                  intro a₀ hfa
                  have h' := hans
                  unfold getAnswer at h'
                  have ha₀ : answer = a₀ :=
                    Option.some.inj (h'.symm.trans hfa)
                  subst ha₀
                  exact hGrade answer question ic true sc hq
                    (by omega) (by omega)
  · -- review request
    unfold requestReview
    rcases hans : getAnswer s aid with _ | answer
    · try rw [hans]
      exact hall
    · try rw [hans]
      dsimp only
      rcases hatt : getExamAttempt s answer.attemptId with _ | attempt
      · try rw [hatt]
        exact hall
      · try rw [hatt]
        dsimp only
        by_cases h1 : attempt.userId ≠ c
        · rw [if_pos h1]
          exact hall
        · rw [if_neg h1]
          dsimp only
          intro a ha
          rw [createGradingRequest_answers] at ha
          exact hall a ha
  · -- resolve grading request
    unfold resolveGradingRequest
    rcases hreq : getGradingRequest s rid with _ | request
    · try rw [hreq]
      exact hall
    · try rw [hreq]
      dsimp only
      rcases hans : getAnswer s request.answerId with _ | answer
      · try rw [hans]
        exact hall
      · try rw [hans]
        dsimp only
        rcases hatt : getExamAttempt s answer.attemptId with _ | attempt
        · try rw [hatt]
          exact hall
        · try rw [hatt]
          dsimp only
          rcases hexam : getExam s attempt.examId with _ | exam
          · try rw [hexam]
            exact hall
          · try rw [hexam]
            dsimp only
            by_cases h1 : exam.userId ≠ c
            · rw [if_pos h1]
              exact hall
            · rw [if_neg h1]
              by_cases h2 : ¬(st = "approved" ∨ st = "rejected")
              · rw [if_pos h2]
                exact hall
              · rw [if_neg h2]
                by_cases h3 : st = "approved"
                · rw [if_pos h3]
                  rcases sc with _ | sc'
                  · dsimp only
                    intro a ha
                    rw [updateGradingRequest_answers] at ha
                    exact hall a ha
                  · dsimp only
                    have hgq : getQuestion ((updateGradingRequest s rid
                        (fun r => { r with status := st, comment := cm, resolvedAt := some n })).2)
                          answer.questionId
                        = getQuestion s answer.questionId := by
                      unfold getQuestion
                      rw [updateGradingRequest_questions]
                    rw [hgq]
                    rcases hq : getQuestion s answer.questionId
                        with _ | question
                    · try rw [hq]
                      intro a ha
                      rw [updateGradingRequest_answers] at ha
                      exact hall a ha
                    · try rw [hq]
                      dsimp only
                      by_cases h4 : sc' > question.points
                      · rw [if_pos h4]
                        intro a ha
                        rw [updateGradingRequest_answers] at ha
                        exact hall a ha
                      · rw [if_neg h4]
                        dsimp only
                        intro a ha
                        rw [updateExamAttempt_answers] at ha
                        refine updateAnswer_pred B _ answer.id _ ?_ ?_ a ha
                        · intro b hb
                          rw [updateGradingRequest_answers] at hb
                          exact hall b hb
                        · intro a₀ hfa
                          rw [updateGradingRequest_answers] at hfa
                          have hansid : answer.id = request.answerId := by
                            simpa using List.find?_some hans
                          have h' : s.answers.find?
                              (fun b => b.id == answer.id) = some answer := by
                            rw [hansid]
                            exact hans
                          have ha₀ : answer = a₀ :=
                            Option.some.inj (h'.symm.trans hfa)
                          subst ha₀
                          by_cases h0 : 0 ≤ sc'
                          · exact hGrade answer question (decide (sc' > 0))
                              true sc' hq h0 (by omega)
                          · refine hGradeAny ?_ answer question
                              (decide (sc' > 0)) true sc' hq (by omega)
                            dsimp only [opScoreNonneg]
                            exact decide_eq_false h0
                · rw [if_neg h3]
                  dsimp only
                  intro a ha
                  rw [updateGradingRequest_answers] at ha
                  exact hall a ha

/-- C7 (amended): Running any sequence of submit, manual-grade, review and
resolve operations preserves the upper bound `score <= points` for every
graded answer; the full `0 <= score <= points` invariant is preserved only
when no resolve operation carries a negative score, since resolve does not
validate the lower bound. -/
theorem scoreBounds_invariant (ops : List Op) (s : Storage)
    (hwf : answersWf s)
    (hqpts : ∀ q ∈ s.questions, 0 ≤ q.points) :
    (scoresUnderMax s → scoresUnderMax (applyOps s ops)) ∧
    ((∀ o ∈ ops, opScoreNonneg o = true) → scoreInBounds s →
      scoreInBounds (applyOps s ops)) := by
  induction ops generalizing s with
  | nil => exact ⟨fun h => h, fun _ h => h⟩
  | cons o rest ih =>
      have hq' : ∀ q ∈ (applyOp s o).questions, 0 ≤ q.points := by
        rw [applyOp_questions]
        exact hqpts
      have hwf' : answersWf (applyOp s o) := applyOp_wf s o hwf
      have step1 : scoresUnderMax s → scoresUnderMax (applyOp s o) := by
        intro h
        unfold scoresUnderMax
        rw [applyOp_questions]
        exact applyOp_pred s o (answerUnderMax s.questions) hwf hqpts
          (fun a t => answerUnderMax_text s.questions a t)
          (fun aid atid qid t => rfl)
          (fun a q ic mg sc hf _ hsc =>
            answerUnderMax_graded s.questions a q ic mg sc hf hsc)
          (fun _ a q ic mg sc hf hsc =>
            answerUnderMax_graded s.questions a q ic mg sc hf hsc)
          h
      have step2 : opScoreNonneg o = true → scoreInBounds s →
          scoreInBounds (applyOp s o) := by
        intro hnn h
        unfold scoreInBounds
        rw [applyOp_questions]
        exact applyOp_pred s o (answerInBounds s.questions) hwf hqpts
          (fun a t => answerInBounds_text s.questions a t)
          (fun aid atid qid t => rfl)
          (fun a q ic mg sc hf h0 hsc =>
            answerInBounds_graded s.questions a q ic mg sc hf h0 hsc)
          (fun hfalse => absurd (hnn.symm.trans hfalse) (by simp))
          h
      constructor
      · intro h
        exact ((ih (applyOp s o) hwf' hq').1) (step1 h)
      · intro hnnall h
        exact ((ih (applyOp s o) hwf' hq').2)
          (fun o' ho' => hnnall o' (List.mem_cons_of_mem o ho'))
          (step2 (hnnall o (List.mem_cons_self o rest)) h)

theorem scoreBounds_counterexample : ¬ scoreInBounds c7Trace := by decide

theorem scoreBounds_invariant_witness :
    (scoresUnderMax c7Base → scoresUnderMax (applyOps c7Base c7GoodOps)) ∧
    ((∀ o ∈ c7GoodOps, opScoreNonneg o = true) → scoreInBounds c7Base →
      scoreInBounds (applyOps c7Base c7GoodOps)) :=
  scoreBounds_invariant c7GoodOps c7Base (by decide) (by decide)
